import Mathlib

/-!
# Serial port control layer (package `serial`, Windows backend)

A shallow embedding of `serial.go` and `serial_windows.go`.

* Machine integers are natural numbers; `uint32` wrap-around is written `% 2 ^ 32`
  and the `byte` conversion `% 256` wherever the source shifts or converts.
* The operating system is an explicit collaborator `OS`: one response function per
  OS entry point, each of which sees the history of calls made so far.  Every
  embedded method threads that history (the trace) and appends one `Event` per OS call.
* Go `error` values are `GoError`; a `nil` error is `none`.
-/

namespace Serial

/-! ## Control-block flag codec (`_DCB_Flags`, serial_windows.go 198-264) -/

/-- Go struct `_DCB_Flags`: eleven booleans and the two `byte` fields `DtrControl` and
`RtsControl` (a `byte` holds 0..255; the fields are natural numbers here). -/
structure _DCB_Flags where
  Binary : Bool
  Parity : Bool
  OutxCtsFlow : Bool
  OutxDsrFlow : Bool
  DtrControl : Nat
  DsrSensitivity : Bool
  TXContinueOnXoff : Bool
  OutX : Bool
  InX : Bool
  ErrorChar : Bool
  Null : Bool
  RtsControl : Nat
  AbortOnError : Bool
  deriving DecidableEq

/-- Closure `bit` of `Set`: `mask := 1 << n` in `uint32`, result `(mask & v) != 0`. -/
def Set_bit (v n : Nat) : Bool :=
  let mask := (1 <<< n) % 2 ^ 32
  (mask &&& v) != 0

/-- Closure `bit2` of `Set`: `x := v >> n; x = x & 0x3; return byte(x)`. -/
def Set_bit2 (v n : Nat) : Nat :=
  let x := v >>> n
  let x := x &&& 0x3
  x % 256

/-- Method `(f *_DCB_Flags) Set(v uint32)`: every field of the receiver is overwritten,
so the result does not depend on the receiver's previous contents. -/
def _DCB_Flags.Set (_f : _DCB_Flags) (v : Nat) : _DCB_Flags :=
  { Binary := Set_bit v 0
    Parity := Set_bit v 1
    OutxCtsFlow := Set_bit v 2
    OutxDsrFlow := Set_bit v 3
    DtrControl := Set_bit2 v 4
    DsrSensitivity := Set_bit v 6
    TXContinueOnXoff := Set_bit v 7
    OutX := Set_bit v 8
    InX := Set_bit v 9
    ErrorChar := Set_bit v 10
    Null := Set_bit v 11
    RtsControl := Set_bit2 v 12
    AbortOnError := Set_bit v 14 }

/-- Closure `bit` of `Get`: `v` starts at zero, becomes 1 when `b`, then `v << n` in `uint32`. -/
def Get_bit (b : Bool) (n : Nat) : Nat :=
  let v := if b then 1 else 0
  (v <<< n) % 2 ^ 32

/-- Closure `bit2` of `Get`: `v = uint32(b & 0x03); v = v << n` in `uint32`. -/
def Get_bit2 (b : Nat) (n : Nat) : Nat :=
  let v := b &&& 0x03
  (v <<< n) % 2 ^ 32

/-- Method `(f _DCB_Flags) Get() (v uint32)`: OR-accumulation into the zero word. -/
def _DCB_Flags.Get (f : _DCB_Flags) : Nat :=
  let v := 0
  let v := v ||| Get_bit f.Binary 0
  let v := v ||| Get_bit f.Parity 1
  let v := v ||| Get_bit f.OutxCtsFlow 2
  let v := v ||| Get_bit f.OutxDsrFlow 3
  let v := v ||| Get_bit2 f.DtrControl 4
  let v := v ||| Get_bit f.DsrSensitivity 6
  let v := v ||| Get_bit f.TXContinueOnXoff 7
  let v := v ||| Get_bit f.OutX 8
  let v := v ||| Get_bit f.InX 9
  let v := v ||| Get_bit f.ErrorChar 10
  let v := v ||| Get_bit f.Null 11
  let v := v ||| Get_bit2 f.RtsControl 12
  let v := v ||| Get_bit f.AbortOnError 14
  v

/-- The flag record literal built inside `setCommState` (serial_windows.go 55-68);
`Parity` is not listed in the literal, so it has Go's zero value `false`. -/
def setCommState_flags : _DCB_Flags :=
  { Binary := true
    Parity := false
    OutxCtsFlow := false
    OutxDsrFlow := false
    DtrControl := 0x01
    DsrSensitivity := false
    TXContinueOnXoff := false
    OutX := false
    InX := false
    ErrorChar := false
    Null := false
    RtsControl := 0x01
    AbortOnError := false }


/-! ## Errors -/

/-- Go `error` values that occur in the package: a `syscall.Errno` or the result of
`fmt.Errorf`.  The `nil` error is `none : Option GoError`. -/
inductive GoError where
  | errno (code : Nat)
  | errorf (msg : String)
  deriving DecidableEq

/-- Method `Error()` of an error value; `errnoText` is the operating system's message
for an `Errno` (what `syscall.Errno.Error` returns). -/
def GoError.Error (errnoText : Nat → String) : GoError → String
  | .errno code => errnoText code
  | .errorf msg => msg

/-! ## Configuration -/

/-- Modelled from the spec: the `Config` struct is not among the given source files.  Its
fields are those the code reads and writes (serial.go 9-21, serial_windows.go 36, 70-99):
`Device` is a string, the four settings are `int` (they index `map[int]int` and `Open`
stores its `baud int` there), and the five timeouts are `uint32` (they are assigned to
`_COMMTIMEOUTS` fields without conversion). -/
structure Config where
  Device : String
  BaudRate : Int
  DataBits : Int
  Parity : Int
  StopBits : Int
  VMIN : Nat
  VTIME : Nat
  ReadIntervalTimeout : Nat
  ReadTotalTimeoutMultiplier : Nat
  ReadTotalTimeoutConstant : Nat
  WriteTotalTimeoutMultiplier : Nat
  WriteTotalTimeoutConstant : Nat
  deriving DecidableEq

/-- Modelled from the spec: the seventeen setting constants (`DataBits_5` ... `BaudRate_115200`)
are declared outside the given source files, so their integer values are a parameter. -/
structure Consts where
  DataBits_5 : Int
  DataBits_6 : Int
  DataBits_7 : Int
  DataBits_8 : Int
  StopBits_1 : Int
  StopBits_1_5 : Int
  StopBits_2 : Int
  Parity_None : Int
  Parity_Odd : Int
  Parity_Even : Int
  Parity_Mark : Int
  Parity_Space : Int
  BaudRate_9600 : Int
  BaudRate_19200 : Int
  BaudRate_38400 : Int
  BaudRate_57600 : Int
  BaudRate_115200 : Int
  deriving DecidableEq

/-- Package variable `settings = map[int] int {...}` (serial_windows.go 178-196), as the
list of its key/value pairs in source order; `List.lookup` is the map index expression. -/
def settings (K : Consts) : List (Int × Int) :=
  [ (K.DataBits_5, 5), (K.DataBits_6, 6), (K.DataBits_7, 7), (K.DataBits_8, 8),
    (K.StopBits_1, 0), (K.StopBits_1_5, 1), (K.StopBits_2, 2),
    (K.Parity_None, 0), (K.Parity_Odd, 1), (K.Parity_Even, 2), (K.Parity_Mark, 3),
    (K.Parity_Space, 4),
    (K.BaudRate_9600, 9600), (K.BaudRate_19200, 19200), (K.BaudRate_38400, 38400),
    (K.BaudRate_57600, 57600), (K.BaudRate_115200, 115200) ]

/-- The keys of `settings`. -/
def Consts.keys (K : Consts) : List Int := (settings K).map Prod.fst

/-- A Go map literal with two equal constant keys does not compile, so the seventeen
constants are pairwise different. -/
def Consts.Distinct (K : Consts) : Prop := K.keys.Nodup

instance (K : Consts) : Decidable K.Distinct := by
  unfold Consts.Distinct
  infer_instance

/-- The five keys of `settings` that are baud-rate constants. -/
def Consts.baudRates (K : Consts) : List Int :=
  [K.BaudRate_9600, K.BaudRate_19200, K.BaudRate_38400, K.BaudRate_57600, K.BaudRate_115200]

/-- One assignment of pairwise different constants, for evaluating the model on concrete
inputs: baud rates and data bits stand for themselves, the other constants are numbered. -/
def sampleConsts : Consts :=
  { DataBits_5 := 5, DataBits_6 := 6, DataBits_7 := 7, DataBits_8 := 8
    StopBits_1 := 1, StopBits_1_5 := 15, StopBits_2 := 2
    Parity_None := 100, Parity_Odd := 101, Parity_Even := 102, Parity_Mark := 103
    Parity_Space := 104
    BaudRate_9600 := 9600, BaudRate_19200 := 19200, BaudRate_38400 := 38400
    BaudRate_57600 := 57600, BaudRate_115200 := 115200 }

/-! ## OS records -/

/-- Go struct `_COMMTIMEOUTS` (five `uint32`). -/
structure _COMMTIMEOUTS where
  ReadIntervalTimeout : Nat
  ReadTotalTimeoutMultiplier : Nat
  ReadTotalTimeoutConstant : Nat
  WriteTotalTimeoutMultiplier : Nat
  WriteTotalTimeoutConstant : Nat
  deriving DecidableEq

/-- Go struct `_DCB`. -/
structure _DCB where
  DCBlength : Nat
  BaudRate : Nat
  Flags : Nat
  Reserved1 : Nat
  XonLim : Nat
  XoffLim : Nat
  ByteSize : Nat
  Parity : Nat
  StopBits : Nat
  XonChar : Nat
  XoffChar : Nat
  ErrorChar : Nat
  EofChar : Nat
  EvtChar : Nat
  Reserved2 : Nat
  deriving DecidableEq

/-- Type `Port`: the stored configuration and the OS handle (`syscall.Handle`). -/
structure Port where
  config : Config
  handle : Nat
  deriving DecidableEq

/-! ## The OS collaborator -/

/-- One OS call together with the arguments the package passes. -/
inductive Call where
  | CreateFile (name : String) (access mode createmode attrs templatefile : Nat)
  | SetCommTimeouts (handle : Nat) (timeouts : _COMMTIMEOUTS)
  | GetCommTimeouts (handle : Nat) (timeouts : _COMMTIMEOUTS)
  | GetCommState (handle : Nat) (dcb : _DCB)
  | SetCommState (handle : Nat) (dcb : _DCB)
  | FlushFileBuffers (handle : Nat)
  | PurgeComm (handle : Nat) (purge : Nat)
  | ClearCommError (handle : Nat)
  | CloseHandle (handle : Nat)
  | ReadFile (handle : Nat) (buf : List Nat)
  | WriteFile (handle : Nat) (buf : List Nat)
  | EscapeCommFunction (handle : Nat) (escape : Nat)
  deriving DecidableEq

/-- What the OS hands back besides the error: the handle of `CreateFile`, the record
stored through the pointer by `GetCommTimeouts` and `GetCommState`, the count stored through
`done` by `WriteFile`, the buffer contents and the count of `ReadFile`. -/
inductive Reply where
  | nothing
  | handle (h : Nat)
  | timeouts (t : _COMMTIMEOUTS)
  | dcb (d : _DCB)
  | count (done : Nat)
  | data (buf : List Nat) (done : Nat)
  deriving DecidableEq

/-- An entry of the trace: the call, the error the package got from it (`none` is `nil`)
and what the OS handed back. -/
structure Event where
  call : Call
  err : Option GoError
  reply : Reply
  deriving DecidableEq

/-- The stubbed OS layer.  Every entry point is a function of the trace so far and of the
arguments, so a stub may answer each call differently.  The `syscall` package functions
(`CreateFile`, `FlushFileBuffers`, `CloseHandle`, `ReadFile`, `WriteFile`) return a Go error;
the kernel32 procedures called through `syscall.Syscall` return the pair `(r0, e1)`.
`GetCommTimeouts` and `GetCommState` also return the record they store through the pointer;
`ReadFile` returns the new buffer contents and `done`, `WriteFile` returns `done` (a
`uint32`).  The records passed to `SetCommTimeouts` and `SetCommState` are inputs only.
`EINVAL` is the number of Go's `syscall.EINVAL` on the platform and `errnoText` the message
of an `Errno`. -/
structure OS where
  EINVAL : Nat
  errnoText : Nat → String
  CreateFile : List Event → String → Nat → Nat → Nat → Nat → Nat → Nat × Option GoError
  FlushFileBuffers : List Event → Nat → Option GoError
  CloseHandle : List Event → Nat → Option GoError
  ReadFile : List Event → Nat → List Nat → List Nat × Nat × Option GoError
  WriteFile : List Event → Nat → List Nat → Nat × Option GoError
  SetCommTimeouts : List Event → Nat → _COMMTIMEOUTS → Nat × Nat
  GetCommTimeouts : List Event → Nat → _COMMTIMEOUTS → _COMMTIMEOUTS × Nat × Nat
  GetCommState : List Event → Nat → _DCB → _DCB × Nat × Nat
  SetCommState : List Event → Nat → _DCB → Nat × Nat
  PurgeComm : List Event → Nat → Nat → Nat × Nat
  ClearCommError : List Event → Nat → Nat × Nat
  EscapeCommFunction : List Event → Nat → Nat → Nat × Nat

/-- What a method that returns only `err error` leaves behind: the error, the receiver
(methods have pointer receivers) and the trace. -/
structure Result where
  err : Option GoError
  port : Port
  trace : List Event
  deriving DecidableEq

/-- The error computed by every kernel32 wrapper from `r0, _, e1 := syscall.Syscall(...)`:
`if r0 == 0 { if e1 != 0 { err = error(e1) } else { err = syscall.EINVAL } }`. -/
def syscallErr (os : OS) (r0 e1 : Nat) : Option GoError :=
  if r0 = 0 then
    if e1 ≠ 0 then some (GoError.errno e1) else some (GoError.errno os.EINVAL)
  else none

/-- Wrapper `_GetCommTimeouts`. -/
def _GetCommTimeouts (os : OS) (tr : List Event) (handle : Nat) (timeouts : _COMMTIMEOUTS) :
    _COMMTIMEOUTS × Option GoError × List Event :=
  let r := os.GetCommTimeouts tr handle timeouts
  let err := syscallErr os r.2.1 r.2.2
  (r.1, err, tr ++ [⟨Call.GetCommTimeouts handle timeouts, err, Reply.timeouts r.1⟩])

/-- Wrapper `_SetCommTimeouts`. -/
def _SetCommTimeouts (os : OS) (tr : List Event) (handle : Nat) (timeouts : _COMMTIMEOUTS) :
    Option GoError × List Event :=
  let r := os.SetCommTimeouts tr handle timeouts
  let err := syscallErr os r.1 r.2
  (err, tr ++ [⟨Call.SetCommTimeouts handle timeouts, err, Reply.nothing⟩])

/-- Wrapper `_GetCommState`. -/
def _GetCommState (os : OS) (tr : List Event) (handle : Nat) (dcb : _DCB) :
    _DCB × Option GoError × List Event :=
  let r := os.GetCommState tr handle dcb
  let err := syscallErr os r.2.1 r.2.2
  (r.1, err, tr ++ [⟨Call.GetCommState handle dcb, err, Reply.dcb r.1⟩])

/-- Wrapper `_SetCommState`. -/
def _SetCommState (os : OS) (tr : List Event) (handle : Nat) (dcb : _DCB) :
    Option GoError × List Event :=
  let r := os.SetCommState tr handle dcb
  let err := syscallErr os r.1 r.2
  (err, tr ++ [⟨Call.SetCommState handle dcb, err, Reply.nothing⟩])

def _PURGE_TXABORT : Nat := 0x01
def _PURGE_RXABORT : Nat := 0x02
def _PURGE_TXCLEAR : Nat := 0x04
def _PURGE_RXCLEAR : Nat := 0x08

/-- Wrapper `_PurgeComm`. -/
def _PurgeComm (os : OS) (tr : List Event) (handle : Nat) (purge : Nat) :
    Option GoError × List Event :=
  let r := os.PurgeComm tr handle purge
  let err := syscallErr os r.1 r.2
  (err, tr ++ [⟨Call.PurgeComm handle purge, err, Reply.nothing⟩])

def _SETXOFF : Nat := 1
def _SETXON : Nat := 2
def _SETRTS : Nat := 3
def _CLRRTS : Nat := 4
def _SETDTR : Nat := 5
def _CLRDTR : Nat := 6
def _RESETDEV : Nat := 7
def _SETBREAK : Nat := 8
def _CLRBREAK : Nat := 9

/-- Wrapper `_EscapeCommFunction`. -/
def _EscapeCommFunction (os : OS) (tr : List Event) (handle : Nat) (escape : Nat) :
    Option GoError × List Event :=
  let r := os.EscapeCommFunction tr handle escape
  let err := syscallErr os r.1 r.2
  (err, tr ++ [⟨Call.EscapeCommFunction handle escape, err, Reply.nothing⟩])

/-- Wrapper `_ClearCommError`. -/
def _ClearCommError (os : OS) (tr : List Event) (handle : Nat) : Option GoError × List Event :=
  let r := os.ClearCommError tr handle
  let err := syscallErr os r.1 r.2
  (err, tr ++ [⟨Call.ClearCommError handle, err, Reply.nothing⟩])

/-- Go's `syscall.FlushFileBuffers`, recorded in the trace. -/
def FlushFileBuffers (os : OS) (tr : List Event) (handle : Nat) : Option GoError × List Event :=
  let err := os.FlushFileBuffers tr handle
  (err, tr ++ [⟨Call.FlushFileBuffers handle, err, Reply.nothing⟩])

/-! ## Formatting -/

/-- The verb `%08x` applied to a `uint32`: lower-case hexadecimal, zero-padded to width 8. -/
def hex08 (n : Nat) : String :=
  let ds := Nat.toDigits 16 n
  String.mk (List.replicate (8 - ds.length) '0' ++ ds)

/-- Method `(c _COMMTIMEOUTS) String()`. -/
def _COMMTIMEOUTS.String (c : _COMMTIMEOUTS) : String :=
  "\n  ReadIntervalTimeout:         " ++ hex08 c.ReadIntervalTimeout ++
  "\n  ReadTotalTimeoutMultiplier:  " ++ hex08 c.ReadTotalTimeoutMultiplier ++
  "\n  ReadTotalTimeoutConstant:    " ++ hex08 c.ReadTotalTimeoutConstant ++
  "\n  WriteTotalTimeoutMultiplier: " ++ hex08 c.WriteTotalTimeoutMultiplier ++
  "\n  WriteTotalTimeoutConstant:   " ++ hex08 c.WriteTotalTimeoutConstant ++
  "\n"

/-! ## Port methods (serial_windows.go) -/

/-- Method `configure`. -/
def Port.configure (p : Port) (cfg : Config) (tr : List Event) : Result :=
  { err := none, port := { p with config := cfg }, trace := tr }

/-- Go's `syscall.UTF16PtrFromString` fails with `EINVAL` exactly when the string
contains a NUL byte. -/
def hasNUL (s : String) : Bool := s.toList.contains (Char.ofNat 0)

def GENERIC_READ : Nat := 0x80000000
def GENERIC_WRITE : Nat := 0x40000000
def OPEN_EXISTING : Nat := 3
def FILE_ATTRIBUTE_NORMAL : Nat := 0x80

/-- The extended-path marker, the raw string literal of `openHandle`: two backslashes,
a dot, a backslash. -/
def pathMarker : String := "\\\\.\\"

/-- Go's `strings.HasPrefix(s, p)`. -/
def HasPrefix (s p : String) : Bool := p.toList.isPrefixOf s.toList

/-- Method `openHandle`. -/
def Port.openHandle (os : OS) (tr : List Event) (p : Port) : Result :=
  let device := p.config.Device
  let device := if !(HasPrefix device pathMarker) then pathMarker ++ device else device
  if hasNUL device then
    { err := some (GoError.errno os.EINVAL), port := p, trace := tr }
  else
    let access := GENERIC_READ ||| GENERIC_WRITE
    let r := os.CreateFile tr device access 0 OPEN_EXISTING FILE_ATTRIBUTE_NORMAL 0
    { err := r.2
      port := { p with handle := r.1 }
      trace := tr ++ [⟨Call.CreateFile device access 0 OPEN_EXISTING FILE_ATTRIBUTE_NORMAL 0,
                       r.2, Reply.handle r.1⟩] }

/-- The record `setTimeouts` builds from the configuration. -/
def Port.timeouts (p : Port) : _COMMTIMEOUTS :=
  { ReadIntervalTimeout := p.config.ReadIntervalTimeout
    ReadTotalTimeoutMultiplier := p.config.ReadTotalTimeoutMultiplier
    ReadTotalTimeoutConstant := p.config.ReadTotalTimeoutConstant
    WriteTotalTimeoutMultiplier := p.config.WriteTotalTimeoutMultiplier
    WriteTotalTimeoutConstant := p.config.WriteTotalTimeoutConstant }

/-- The error `setTimeouts` builds when the readback differs from the request. -/
def timeoutsOverridden (timeouts readback : _COMMTIMEOUTS) : GoError :=
  GoError.errorf ("timeout settings overridden by serial device:\nrequested:\n" ++
    timeouts.String ++ "\nactual:\n" ++ readback.String)

/-- Method `setTimeouts`; `new(_COMMTIMEOUTS)` is the all-zero record. -/
def Port.setTimeouts (os : OS) (tr : List Event) (p : Port) : Result :=
  let timeouts := p.timeouts
  let r := _SetCommTimeouts os tr p.handle timeouts
  match r.1 with
  | some e => { err := some e, port := p, trace := r.2 }
  | none =>
    let readback : _COMMTIMEOUTS := ⟨0, 0, 0, 0, 0⟩
    let g := _GetCommTimeouts os r.2 p.handle readback
    let readback := g.1
    match g.2.1 with
    | some e => { err := some e, port := p, trace := g.2.2 }
    | none =>
      if timeouts ≠ readback then
        { err := some (timeoutsOverridden timeouts readback), port := p, trace := g.2.2 }
      else
        { err := none, port := p, trace := g.2.2 }

/-- The conversion `uint32(v)` of an `int`. -/
def toUint32 (v : Int) : Nat := (v % 2 ^ 32).toNat

/-- The conversion `byte(v)` of an `int`. -/
def toByte (v : Int) : Nat := (v % 256).toNat

/-- Method `setCommState`. -/
def Port.setCommState (K : Consts) (os : OS) (tr : List Event) (p : Port) : Result :=
  let dcb : _DCB := ⟨28, 0, 0, 0, 0, 0, 0, 0, 0, 0, 0, 0, 0, 0, 0⟩
  let g := _GetCommState os tr p.handle dcb
  let dcb := g.1
  match g.2.1 with
  | some e => { err := some e, port := p, trace := g.2.2 }
  | none =>
    let f := setCommState_flags
    let dcb := { dcb with Flags := f.Get }
    match (settings K).lookup p.config.BaudRate with
    | none =>
      { err := some (GoError.errorf ("unsupported baud rate: " ++ toString p.config.BaudRate))
        port := p, trace := g.2.2 }
    | some v =>
      let dcb := { dcb with BaudRate := toUint32 v }
      match (settings K).lookup p.config.DataBits with
      | none =>
        { err := some (GoError.errorf ("unsupported data bits: " ++ toString p.config.DataBits))
          port := p, trace := g.2.2 }
      | some v =>
        let dcb := { dcb with ByteSize := toByte v }
        match (settings K).lookup p.config.Parity with
        | none =>
          { err := some (GoError.errorf ("unsupported parity: " ++ toString p.config.Parity))
            port := p, trace := g.2.2 }
        | some v =>
          let dcb := { dcb with Parity := toByte v }
          match (settings K).lookup p.config.StopBits with
          | none =>
            { err := some (GoError.errorf
                ("unsupported stop bits: " ++ toString p.config.StopBits))
              port := p, trace := g.2.2 }
          | some v =>
            let dcb := { dcb with StopBits := toByte v }
            let s := _SetCommState os g.2.2 p.handle dcb
            { err := s.1, port := p, trace := s.2 }

/-- Method `reset`. -/
def Port.reset (os : OS) (tr : List Event) (p : Port) : Result :=
  let r := FlushFileBuffers os tr p.handle
  match r.1 with
  | some e => { err := some e, port := p, trace := r.2 }
  | none =>
    let r := _PurgeComm os r.2 p.handle
      (_PURGE_TXABORT ||| _PURGE_RXABORT ||| _PURGE_TXCLEAR ||| _PURGE_RXCLEAR)
    match r.1 with
    | some e => { err := some e, port := p, trace := r.2 }
    | none =>
      let r := _ClearCommError os r.2 p.handle
      match r.1 with
      | some e => { err := some e, port := p, trace := r.2 }
      | none => { err := none, port := p, trace := r.2 }

/-- Method `open`; `K` supplies the constants that `settings` is keyed by. -/
def Port.open (K : Consts) (os : OS) (tr : List Event) (p : Port) : Result :=
  let r := p.openHandle os tr
  match r.err with
  | some e =>
    { r with err := some (GoError.errorf ("error opening serial device " ++
        r.port.config.Device ++ ": " ++ e.Error os.errnoText)) }
  | none =>
    let r := r.port.setTimeouts os r.trace
    match r.err with
    | some e =>
      { r with err := some (GoError.errorf ("error setting timeouts: " ++
          e.Error os.errnoText)) }
    | none =>
      let r := r.port.setCommState K os r.trace
      match r.err with
      | some e =>
        { r with err := some (GoError.errorf ("error applying serial settings: " ++
            e.Error os.errnoText)) }
      | none =>
        let r := r.port.reset os r.trace
        match r.err with
        | some e =>
          { r with err := some (GoError.errorf ("error during reset: " ++
              e.Error os.errnoText)) }
        | none => r

/-- Method `close`. -/
def Port.close (os : OS) (tr : List Event) (p : Port) : Result :=
  let err := os.CloseHandle tr p.handle
  { err := err, port := p, trace := tr ++ [⟨Call.CloseHandle p.handle, err, Reply.nothing⟩] }

/-- What `read` leaves behind: `n`, `err`, the buffer contents and the trace. -/
structure ReadResult where
  n : Nat
  err : Option GoError
  buf : List Nat
  trace : List Event
  deriving DecidableEq

/-- Method `read`: one `syscall.ReadFile`, `n = int(done)`. -/
def Port.read (os : OS) (tr : List Event) (p : Port) (b : List Nat) : ReadResult :=
  let r := os.ReadFile tr p.handle b
  let done := r.2.1
  { n := done, err := r.2.2, buf := r.1
    trace := tr ++ [⟨Call.ReadFile p.handle b, r.2.2, Reply.data r.1 done⟩] }

/-- How a run of `write` ends: it returns `(n, err)`; or the slice expression `b[n:]`
panics because `n > len(b)`; or the loop is still running when the fuel is spent. -/
inductive WriteOutcome where
  | returned (n : Nat) (err : Option GoError)
  | panicked
  | unfinished
  deriving DecidableEq

structure WriteResult where
  outcome : WriteOutcome
  trace : List Event
  deriving DecidableEq

/-- The `for` loop of `write`, entered with the current `n`; one unit of fuel per
iteration.  `n` is a Go `int` that only grows by `uint32` amounts. -/
def Port.writeLoop (os : OS) (p : Port) (b : List Nat) :
    Nat → Nat → List Event → WriteResult
  | 0, _, tr => { outcome := WriteOutcome.unfinished, trace := tr }
  | fuel + 1, n, tr =>
    if b.length < n then
      { outcome := WriteOutcome.panicked, trace := tr }
    else
      let r := os.WriteFile tr p.handle (b.drop n)
      let done := r.1
      let err := r.2
      let tr := tr ++ [⟨Call.WriteFile p.handle (b.drop n), err, Reply.count done⟩]
      let n := n + done
      if n = b.length then
        { outcome := WriteOutcome.returned n err, trace := tr }
      else
        Port.writeLoop os p b fuel n tr

/-- Method `write`: `n = 0`, then the loop. -/
def Port.write (os : OS) (tr : List Event) (p : Port) (b : List Nat) (fuel : Nat) :
    WriteResult :=
  Port.writeLoop os p b fuel 0 tr

/-- Method `flush`. -/
def Port.flush (os : OS) (tr : List Event) (p : Port) : Result :=
  let r := FlushFileBuffers os tr p.handle
  { err := r.1, port := p, trace := r.2 }

/-- Constants `DTR Signal = iota` and `RTS` (type `Signal byte`). -/
def DTR : Nat := 0
def RTS : Nat := 1

/-- Method `signal`; the `default` case formats `s` with `%v` (a byte prints in decimal)
and `value` with `%v`. -/
def Port.signal (os : OS) (tr : List Event) (p : Port) (s : Nat) (value : Bool) : Result :=
  if s = DTR ∧ value = false then
    let r := _EscapeCommFunction os tr p.handle _CLRDTR
    { err := r.1, port := p, trace := r.2 }
  else if s = DTR ∧ value = true then
    let r := _EscapeCommFunction os tr p.handle _SETDTR
    { err := r.1, port := p, trace := r.2 }
  else if s = RTS ∧ value = false then
    let r := _EscapeCommFunction os tr p.handle _CLRRTS
    { err := r.1, port := p, trace := r.2 }
  else if s = RTS ∧ value = true then
    let r := _EscapeCommFunction os tr p.handle _SETRTS
    { err := r.1, port := p, trace := r.2 }
  else
    { err := some (GoError.errorf ("Unreconized signal: " ++ toString s ++ " " ++
        toString value))
      port := p, trace := tr }

/-! ## Exported functions (serial.go) -/

/-- Function `NewPort`; `Device` and `handle` have Go's zero values. -/
def NewPort (K : Consts) : Port :=
  { config :=
      { Device := ""
        BaudRate := K.BaudRate_9600
        DataBits := K.DataBits_8
        Parity := K.Parity_None
        StopBits := K.StopBits_1
        VMIN := 1
        VTIME := 0
        ReadIntervalTimeout := 1000
        ReadTotalTimeoutMultiplier := 0
        ReadTotalTimeoutConstant := 0
        WriteTotalTimeoutMultiplier := 0
        WriteTotalTimeoutConstant := 5000 }
    handle := 0 }

/-- Method `Config`. -/
def Port.Config (p : Port) : Config := p.config

/-- Method `Configure`. -/
def Port.Configure (p : Port) (cfg : Serial.Config) (tr : List Event) : Result :=
  p.configure cfg tr

/-- Method `Open`. -/
def Port.Open (K : Consts) (os : OS) (tr : List Event) (p : Port) : Result :=
  p.open K os tr

/-- Method `Close`. -/
def Port.Close (os : OS) (tr : List Event) (p : Port) : Result := p.close os tr

/-- Method `Read`. -/
def Port.Read (os : OS) (tr : List Event) (p : Port) (b : List Nat) : ReadResult :=
  p.read os tr b

/-- Method `Write`. -/
def Port.Write (os : OS) (tr : List Event) (p : Port) (b : List Nat) (fuel : Nat) :
    WriteResult :=
  p.write os tr b fuel

/-- Method `Signal`. -/
def Port.Signal (os : OS) (tr : List Event) (p : Port) (s : Nat) (value : Bool) : Result :=
  p.signal os tr s value

/-- Function `Open(device, baud)`. -/
def Open (K : Consts) (os : OS) (tr : List Event) (device : String) (baud : Int) : Result :=
  let p := NewPort K
  let config := p.Config
  let config := { config with Device := device }
  let config := { config with BaudRate := baud }
  let r := p.Configure config tr
  match r.err with
  | some e => { r with err := some e }
  | none => r.port.Open K os r.trace

/-! ## Vocabulary for statements about traces -/

/-- The kind of an OS call, keeping the purge flags and the escape function code. -/
inductive Kind where
  | openHandle
  | setTimeouts
  | getTimeouts
  | getControlBlock
  | setControlBlock
  | flush
  | purge (flags : Nat)
  | clearError
  | closeHandle
  | read
  | write
  | escape (fn : Nat)
  deriving DecidableEq

def Call.kind : Call → Kind
  | .CreateFile _ _ _ _ _ _ => Kind.openHandle
  | .SetCommTimeouts _ _ => Kind.setTimeouts
  | .GetCommTimeouts _ _ => Kind.getTimeouts
  | .GetCommState _ _ => Kind.getControlBlock
  | .SetCommState _ _ => Kind.setControlBlock
  | .FlushFileBuffers _ => Kind.flush
  | .PurgeComm _ purge => Kind.purge purge
  | .ClearCommError _ => Kind.clearError
  | .CloseHandle _ => Kind.closeHandle
  | .ReadFile _ _ => Kind.read
  | .WriteFile _ _ => Kind.write
  | .EscapeCommFunction _ escape => Kind.escape escape

def Event.kind (e : Event) : Kind := e.call.kind

/-- The fixed order of OS calls of a complete `open`. -/
def openSequence : List Kind :=
  [Kind.openHandle, Kind.setTimeouts, Kind.getTimeouts, Kind.getControlBlock,
   Kind.setControlBlock, Kind.flush, Kind.purge 0x0F, Kind.clearError]

/-- The device name `openHandle` passes on: the path marker is put in front when absent. -/
def Port.deviceName (p : Port) : String :=
  if !(HasPrefix p.config.Device pathMarker) then pathMarker ++ p.config.Device
  else p.config.Device

/-- The bytes a `WriteFile` event reports as accepted: the first `done` bytes of its
argument (nothing for other events). -/
def Event.chunk (e : Event) : List Nat :=
  match e.call, e.reply with
  | Call.WriteFile _ buf, Reply.count done => buf.take done
  | _, _ => []

/-- The count reported by a `WriteFile` or `ReadFile` event (0 for other events). -/
def Event.done (e : Event) : Nat :=
  match e.reply with
  | Reply.count done => done
  | Reply.data _ done => done
  | _ => 0

/-- The error of the first of BaudRate, DataBits, Parity, StopBits whose value is not a
key of `settings`, in the order `setCommState` looks them up; `none` when all four are keys. -/
def unsupported (K : Consts) (cfg : Config) : Option GoError :=
  if ((settings K).lookup cfg.BaudRate).isNone then
    some (GoError.errorf ("unsupported baud rate: " ++ toString cfg.BaudRate))
  else if ((settings K).lookup cfg.DataBits).isNone then
    some (GoError.errorf ("unsupported data bits: " ++ toString cfg.DataBits))
  else if ((settings K).lookup cfg.Parity).isNone then
    some (GoError.errorf ("unsupported parity: " ++ toString cfg.Parity))
  else if ((settings K).lookup cfg.StopBits).isNone then
    some (GoError.errorf ("unsupported stop bits: " ++ toString cfg.StopBits))
  else none

/-- The all-zero control block with `DCBlength: 28` that `setCommState` passes to
`_GetCommState`. -/
def dcb28 : _DCB := ⟨28, 0, 0, 0, 0, 0, 0, 0, 0, 0, 0, 0, 0, 0, 0⟩

/-- The OS's answer to a call issued after the history `tr`: the error the package gets
from it and what the OS hands back. -/
def OS.answer (os : OS) (tr : List Event) : Call → Option GoError × Reply
  | Call.CreateFile name access mode createmode attrs templatefile =>
    ((os.CreateFile tr name access mode createmode attrs templatefile).2,
      Reply.handle (os.CreateFile tr name access mode createmode attrs templatefile).1)
  | Call.SetCommTimeouts handle timeouts =>
    (syscallErr os (os.SetCommTimeouts tr handle timeouts).1
      (os.SetCommTimeouts tr handle timeouts).2, Reply.nothing)
  | Call.GetCommTimeouts handle timeouts =>
    (syscallErr os (os.GetCommTimeouts tr handle timeouts).2.1
      (os.GetCommTimeouts tr handle timeouts).2.2,
      Reply.timeouts (os.GetCommTimeouts tr handle timeouts).1)
  | Call.GetCommState handle dcb =>
    (syscallErr os (os.GetCommState tr handle dcb).2.1 (os.GetCommState tr handle dcb).2.2,
      Reply.dcb (os.GetCommState tr handle dcb).1)
  | Call.SetCommState handle dcb =>
    (syscallErr os (os.SetCommState tr handle dcb).1 (os.SetCommState tr handle dcb).2,
      Reply.nothing)
  | Call.FlushFileBuffers handle => (os.FlushFileBuffers tr handle, Reply.nothing)
  | Call.PurgeComm handle purge =>
    (syscallErr os (os.PurgeComm tr handle purge).1 (os.PurgeComm tr handle purge).2,
      Reply.nothing)
  | Call.ClearCommError handle =>
    (syscallErr os (os.ClearCommError tr handle).1 (os.ClearCommError tr handle).2,
      Reply.nothing)
  | Call.CloseHandle handle => (os.CloseHandle tr handle, Reply.nothing)
  | Call.ReadFile handle buf =>
    ((os.ReadFile tr handle buf).2.2,
      Reply.data (os.ReadFile tr handle buf).1 (os.ReadFile tr handle buf).2.1)
  | Call.WriteFile handle buf =>
    ((os.WriteFile tr handle buf).2, Reply.count (os.WriteFile tr handle buf).1)
  | Call.EscapeCommFunction handle escape =>
    (syscallErr os (os.EscapeCommFunction tr handle escape).1
      (os.EscapeCommFunction tr handle escape).2, Reply.nothing)

/-- The handle an event hands back (0 when it hands back something else). -/
def Event.handle (e : Event) : Nat :=
  match e.reply with
  | Reply.handle h => h
  | _ => 0

/-- The timeout record an event hands back (all zero when it hands back something else). -/
def Event.readback (e : Event) : _COMMTIMEOUTS :=
  match e.reply with
  | Reply.timeouts t => t
  | _ => ⟨0, 0, 0, 0, 0⟩

/-- The control block an event hands back (`dcb28` when it hands back something else). -/
def Event.block (e : Event) : _DCB :=
  match e.reply with
  | Reply.dcb d => d
  | _ => dcb28

/-- The OS code the table gives for a setting value (0 when the value is not a key). -/
def settingCode (K : Consts) (v : Int) : Int := ((settings K).lookup v).getD 0

/-- The control block written back in step 3 of the sequencer: the block read from the
device with only Flags, BaudRate, ByteSize, Parity and StopBits overwritten. -/
def controlBlock (K : Consts) (cfg : Config) (d : _DCB) : _DCB :=
  { d with
    Flags := 0x1011
    BaudRate := toUint32 (settingCode K cfg.BaudRate)
    ByteSize := toByte (settingCode K cfg.DataBits)
    Parity := toByte (settingCode K cfg.Parity)
    StopBits := toByte (settingCode K cfg.StopBits) }

/-- What the open/reset sequencer does next: issue a call, stop with a step's failure (the
step's context and the step's own error), or finish. -/
inductive Next where
  | call (c : Call)
  | fail (context : String) (inner : GoError)
  | finished
  deriving DecidableEq

/-- The open/reset state machine of the specification (section 4.4), as a function of the
events so far: acquire the handle, apply the timeouts (set, read back, compare), apply the
control state (read, check the four settings, write), reset (flush, purge with all four
flags, clear the error state).  After a failed call, and after a check that does not pass,
it stops with that step's context and error; it issues a call only after everything before
it succeeded; after eight successful calls it finishes. -/
def openNext (K : Consts) (os : OS) (p : Port) : List Event → Next
  | [] =>
    if hasNUL p.deviceName then
      Next.fail ("error opening serial device " ++ p.config.Device) (GoError.errno os.EINVAL)
    else
      Next.call (Call.CreateFile p.deviceName (GENERIC_READ ||| GENERIC_WRITE) 0 OPEN_EXISTING
        FILE_ATTRIBUTE_NORMAL 0)
  | [e0] =>
    match e0.err with
    | some e => Next.fail ("error opening serial device " ++ p.config.Device) e
    | none => Next.call (Call.SetCommTimeouts e0.handle p.timeouts)
  | [e0, e1] =>
    match e1.err with
    | some e => Next.fail "error setting timeouts" e
    | none => Next.call (Call.GetCommTimeouts e0.handle ⟨0, 0, 0, 0, 0⟩)
  | [e0, _, e2] =>
    match e2.err with
    | some e => Next.fail "error setting timeouts" e
    | none =>
      if e2.readback ≠ p.timeouts then
        Next.fail "error setting timeouts" (timeoutsOverridden p.timeouts e2.readback)
      else Next.call (Call.GetCommState e0.handle dcb28)
  | [e0, _, _, e3] =>
    match e3.err with
    | some e => Next.fail "error applying serial settings" e
    | none =>
      match unsupported K p.config with
      | some e => Next.fail "error applying serial settings" e
      | none => Next.call (Call.SetCommState e0.handle (controlBlock K p.config e3.block))
  | [e0, _, _, _, e4] =>
    match e4.err with
    | some e => Next.fail "error applying serial settings" e
    | none => Next.call (Call.FlushFileBuffers e0.handle)
  | [e0, _, _, _, _, e5] =>
    match e5.err with
    | some e => Next.fail "error during reset" e
    | none => Next.call (Call.PurgeComm e0.handle 0x0F)
  | [e0, _, _, _, _, _, e6] =>
    match e6.err with
    | some e => Next.fail "error during reset" e
    | none => Next.call (Call.ClearCommError e0.handle)
  | [_, _, _, _, _, _, _, e7] =>
    match e7.err with
    | some e => Next.fail "error during reset" e
    | none => Next.finished
  | _ => Next.finished

/-- The events `evs`, issued after the events `pre` of an `open` that started at history
`tr`, follow the state machine: each call is the one `openNext` prescribes after the
events before it, and its error and reply are the OS's answer at that point. -/
def Follows (K : Consts) (os : OS) (p : Port) (tr : List Event) :
    List Event → List Event → Prop
  | _, [] => True
  | pre, ev :: rest =>
    openNext K os p pre = Next.call ev.call ∧
    os.answer (tr ++ pre) ev.call = (ev.err, ev.reply) ∧
    Follows K os p tr (pre ++ [ev]) rest

/-! ## Concrete stubs, for evaluating the model on concrete inputs -/

/-- A stub that accepts every call: handle 7, every kernel32 procedure succeeds,
`GetCommTimeouts` echoes the record of the latest call when that was `SetCommTimeouts`,
`GetCommState` leaves the block as passed, `WriteFile` accepts the whole argument and
`ReadFile` places nothing. -/
def acceptAll : OS :=
  { EINVAL := 536870951
    errnoText := fun n => "errno " ++ toString n
    CreateFile := fun _ _ _ _ _ _ _ => (7, none)
    FlushFileBuffers := fun _ _ => none
    CloseHandle := fun _ _ => none
    ReadFile := fun _ _ b => (b, 0, none)
    WriteFile := fun _ _ b => (b.length, none)
    SetCommTimeouts := fun _ _ _ => (1, 0)
    GetCommTimeouts := fun tr _ t =>
      match tr.getLast? with
      | some ⟨Call.SetCommTimeouts _ q, _, _⟩ => (q, 1, 0)
      | _ => (t, 1, 0)
    GetCommState := fun _ _ d => (d, 1, 0)
    SetCommState := fun _ _ _ => (1, 0)
    PurgeComm := fun _ _ _ => (1, 0)
    ClearCommError := fun _ _ => (1, 0)
    EscapeCommFunction := fun _ _ _ => (1, 0) }

/-- As `acceptAll`, but the first `WriteFile` of a run (empty trace) fails with
`Errno` 5 and reports zero bytes written; later writes accept the whole argument. -/
def failFirstWrite : OS :=
  { acceptAll with
    WriteFile := fun tr _ b => if tr.isEmpty then (0, some (GoError.errno 5)) else (b.length, none) }

/-- As `acceptAll`, but `WriteFile` accepts one byte of a non-empty argument and fails
with `Errno` 5 on an empty argument. -/
def oneByteStrict : OS :=
  { acceptAll with
    WriteFile := fun _ _ b => if b.isEmpty then (0, some (GoError.errno 5)) else (1, none) }

/-- As `acceptAll`, but `WriteFile` accepts one byte per call (nothing of an empty argument). -/
def oneByte : OS :=
  { acceptAll with
    WriteFile := fun _ _ b => if b.isEmpty then (0, none) else (1, none) }

/-- The default Port with `BaudRate` set to the constant `DataBits_5`, a value of another
field (what `Open(device, DataBits_5)` configures, apart from the device name). -/
def crossFieldPort (K : Consts) : Port :=
  { config := { (NewPort K).config with BaudRate := K.DataBits_5 }, handle := 0 }

/-! # Theorems -/

/-! ## Control-block flag codec (C1, C2, C3) -/

theorem Set_bit_eq (v n : Nat) (hn : n < 32) : Set_bit v n = v.testBit n := by
  unfold Set_bit
  have h1 : (1 <<< n) % 2 ^ 32 = 2 ^ n := by
    rw [Nat.one_shiftLeft]
    exact Nat.mod_eq_of_lt (Nat.pow_lt_pow_right (by norm_num) hn)
  simp only [h1]
  rw [Nat.and_comm, Nat.and_two_pow]
  cases h : v.testBit n <;> simp

theorem three_testBit (j : Nat) : Nat.testBit 3 j = decide (j < 2) := by
  have := Nat.testBit_two_pow_sub_one 2 j
  simpa using this

theorem Set_bit2_testBit (v n j : Nat) :
    (Set_bit2 v n).testBit j = (decide (j < 2) && v.testBit (n + j)) := by
  unfold Set_bit2
  have : (256 : Nat) = 2 ^ 8 := by norm_num
  simp only [this, Nat.testBit_mod_two_pow, Nat.testBit_and, Nat.testBit_shiftRight,
    three_testBit]
  by_cases h : j < 2
  · have h8 : j < 8 := by omega
    simp [h, h8]
  · simp [h]

theorem Get_bit_testBit (b : Bool) (n i : Nat) (hn : n < 32) :
    (Get_bit b n).testBit i = (b && decide (i = n)) := by
  unfold Get_bit
  cases b
  · simp
  · simp only [if_true, Nat.one_shiftLeft]
    rw [Nat.mod_eq_of_lt (Nat.pow_lt_pow_right (by norm_num) hn)]
    simp [Nat.testBit_two_pow, eq_comm]

theorem Get_bit2_testBit (b n i : Nat) (hn : n + 2 ≤ 32) :
    (Get_bit2 b n).testBit i = (decide (n ≤ i) && decide (i < n + 2) && b.testBit (i - n)) := by
  unfold Get_bit2
  simp only [Nat.testBit_mod_two_pow, Nat.testBit_shiftLeft, Nat.testBit_and, three_testBit]
  by_cases h1 : n ≤ i
  · by_cases h2 : i < n + 2
    · have h3 : i < 32 := by omega
      have h4 : i - n < 2 := by omega
      simp [h1, h2, h3, h4]
    · have h4 : ¬ i - n < 2 := by omega
      simp [h1, h2, h4]
  · simp [h1]

/-- Bit `i` of the encoded word, field by field. -/
theorem Get_testBit (f : _DCB_Flags) (i : Nat) :
    f.Get.testBit i =
      ((f.Binary && decide (i = 0)) || (f.Parity && decide (i = 1)) ||
       (f.OutxCtsFlow && decide (i = 2)) || (f.OutxDsrFlow && decide (i = 3)) ||
       (decide (4 ≤ i) && decide (i < 6) && f.DtrControl.testBit (i - 4)) ||
       (f.DsrSensitivity && decide (i = 6)) || (f.TXContinueOnXoff && decide (i = 7)) ||
       (f.OutX && decide (i = 8)) || (f.InX && decide (i = 9)) ||
       (f.ErrorChar && decide (i = 10)) || (f.Null && decide (i = 11)) ||
       (decide (12 ≤ i) && decide (i < 14) && f.RtsControl.testBit (i - 12)) ||
       (f.AbortOnError && decide (i = 14))) := by
  unfold _DCB_Flags.Get
  simp only [Nat.testBit_or, Nat.zero_or]
  rw [Get_bit_testBit _ 0 i (by norm_num), Get_bit_testBit _ 1 i (by norm_num),
    Get_bit_testBit _ 2 i (by norm_num), Get_bit_testBit _ 3 i (by norm_num),
    Get_bit2_testBit _ 4 i (by norm_num), Get_bit_testBit _ 6 i (by norm_num),
    Get_bit_testBit _ 7 i (by norm_num), Get_bit_testBit _ 8 i (by norm_num),
    Get_bit_testBit _ 9 i (by norm_num), Get_bit_testBit _ 10 i (by norm_num),
    Get_bit_testBit _ 11 i (by norm_num), Get_bit2_testBit _ 12 i (by norm_num),
    Get_bit_testBit _ 14 i (by norm_num)]

theorem Get_lt (f : _DCB_Flags) : f.Get < 2 ^ 15 := by
  apply Nat.lt_pow_two_of_testBit
  intro i hi
  rw [Get_testBit]
  have h : ∀ k, k < 15 → decide (i = k) = false := by
    intro k hk
    simp
    omega
  have h6 : decide (i < 6) = false := by simp; omega
  have h14 : decide (i < 14) = false := by simp; omega
  simp [h, h6, h14]

theorem small_testBit (x j : Nat) (hx : x ≤ 3) (hj : 2 ≤ j) : x.testBit j = false := by
  apply Nat.testBit_lt_two_pow
  calc x < 2 ^ 2 := by omega
    _ ≤ 2 ^ j := Nat.pow_le_pow_right (by norm_num) hj

/-- C1: for every flag record `f` whose `DtrControl` and `RtsControl` are in 0..3 and
every receiver `g`, decoding the encoded word gives `f` back: `g.Set(f.Get())` leaves
`g == f`. -/
theorem C1_decode_encode (g f : _DCB_Flags) (hd : f.DtrControl ≤ 3) (hr : f.RtsControl ≤ 3) :
    g.Set f.Get = f := by
  have hb : ∀ n, n < 32 → Set_bit f.Get n = f.Get.testBit n := fun n hn => Set_bit_eq _ n hn
  have hD : Set_bit2 f.Get 4 = f.DtrControl := by
    apply Nat.eq_of_testBit_eq
    intro j
    rw [Set_bit2_testBit, Get_testBit]
    by_cases hj : j < 2
    · have : 4 + j - 4 = j := by omega
      have e1 : ∀ k, k < 4 ∨ 5 < k → decide (4 + j = k) = false := by
        intro k hk; simp; omega
      have e2 : decide (12 ≤ 4 + j) = false := by simp; omega
      have e3 : decide (4 + j < 6) = true := by simp; omega
      simp [hj, this, e1, e2, e3]
    · simp [hj, small_testBit _ j hd (by omega)]
  have hR : Set_bit2 f.Get 12 = f.RtsControl := by
    apply Nat.eq_of_testBit_eq
    intro j
    rw [Set_bit2_testBit, Get_testBit]
    by_cases hj : j < 2
    · have : 12 + j - 12 = j := by omega
      have e1 : ∀ k, k < 12 ∨ 13 < k → decide (12 + j = k) = false := by
        intro k hk; simp; omega
      have e2 : decide (12 + j < 6) = false := by simp; omega
      have e3 : decide (12 + j < 14) = true := by simp; omega
      simp [hj, this, e1, e2, e3]
    · simp [hj, small_testBit _ j hr (by omega)]
  unfold _DCB_Flags.Set
  rw [hD, hR]
  simp only [hb 0 (by norm_num), hb 1 (by norm_num), hb 2 (by norm_num), hb 3 (by norm_num),
    hb 6 (by norm_num), hb 7 (by norm_num), hb 8 (by norm_num), hb 9 (by norm_num),
    hb 10 (by norm_num), hb 11 (by norm_num), hb 14 (by norm_num), Get_testBit]
  cases f
  simp

/-- C2: for every 32-bit word `w` whose bits 15 through 31 are zero, decoding `w` with
`Set` (on any receiver) and re-encoding with `Get` returns exactly `w`. -/
theorem C2_encode_decode (g : _DCB_Flags) (w : Nat) (h32 : w < 2 ^ 32)
    (hres : ∀ i, 15 ≤ i → i < 32 → w.testBit i = false) : (g.Set w).Get = w := by
  have hw : w < 2 ^ 15 := by
    apply Nat.lt_pow_two_of_testBit
    intro i hi
    by_cases h : i < 32
    · exact hres i hi h
    · apply Nat.testBit_lt_two_pow
      calc w < 2 ^ 32 := h32
        _ ≤ 2 ^ i := Nat.pow_le_pow_right (by norm_num) (by omega)
  apply Nat.eq_of_testBit_eq
  intro i
  rw [Get_testBit]
  unfold _DCB_Flags.Set
  simp only [Set_bit_eq w 0 (by norm_num), Set_bit_eq w 1 (by norm_num),
    Set_bit_eq w 2 (by norm_num), Set_bit_eq w 3 (by norm_num), Set_bit_eq w 6 (by norm_num),
    Set_bit_eq w 7 (by norm_num), Set_bit_eq w 8 (by norm_num), Set_bit_eq w 9 (by norm_num),
    Set_bit_eq w 10 (by norm_num), Set_bit_eq w 11 (by norm_num), Set_bit_eq w 14 (by norm_num),
    Set_bit2_testBit]
  by_cases hi : i < 15
  · interval_cases i <;> simp
  · have hz : w.testBit i = false := by
      apply Nat.testBit_lt_two_pow
      calc w < 2 ^ 15 := hw
        _ ≤ 2 ^ i := Nat.pow_le_pow_right (by norm_num) (by omega)
    have h : ∀ k, k < 15 → decide (i = k) = false := by
      intro k hk
      simp
      omega
    have h6 : decide (i < 6) = false := by simp; omega
    have h14 : decide (i < 14) = false := by simp; omega
    simp [h, h6, h14, hz]

/-- Witness for C1 at a record with every boolean set and both 2-bit fields at 3,
decoded into the zero record. -/
theorem C1_decode_encode_witness :
    (3 ≤ 3 ∧ 2 ≤ 3) ∧
    (⟨false, false, false, false, 0, false, false, false, false, false, false, 0, false⟩ :
        _DCB_Flags).Set
      (⟨true, true, true, true, 3, true, true, true, true, true, true, 2, true⟩ :
        _DCB_Flags).Get =
      ⟨true, true, true, true, 3, true, true, true, true, true, true, 2, true⟩ :=
  ⟨by decide, C1_decode_encode _ _ (by decide) (by decide)⟩

/-- Witness for C2 at the word 0x5A5A. -/
theorem C2_encode_decode_witness :
    (setCommState_flags.Set 0x5A5A).Get = 0x5A5A :=
  C2_encode_decode setCommState_flags 0x5A5A (by decide) (by decide)

/-- C3: for every flag record (also with `DtrControl` or `RtsControl` above 3) `Get` is the
bitwise OR of each boolean as 0/1 at its table offset and of the low two bits of
`DtrControl` at offset 4 and of `RtsControl` at offset 12; every bit at position 15 or
above is zero; the record built by `setCommState` encodes to 0x1011, and that is the
`Flags` word of every control block `setCommState` passes to the OS, whatever the Config. -/
theorem C3_encode_layout (f : _DCB_Flags) :
    f.Get =
      (f.Binary.toNat <<< 0 ||| f.Parity.toNat <<< 1 ||| f.OutxCtsFlow.toNat <<< 2 |||
       f.OutxDsrFlow.toNat <<< 3 ||| (f.DtrControl % 4) <<< 4 |||
       f.DsrSensitivity.toNat <<< 6 ||| f.TXContinueOnXoff.toNat <<< 7 |||
       f.OutX.toNat <<< 8 ||| f.InX.toNat <<< 9 ||| f.ErrorChar.toNat <<< 10 |||
       f.Null.toNat <<< 11 ||| (f.RtsControl % 4) <<< 12 ||| f.AbortOnError.toNat <<< 14) ∧
    (∀ i, 15 ≤ i → f.Get.testBit i = false) ∧
    setCommState_flags.Get = 0x1011 ∧
    (∀ (K : Consts) (os : OS) (tr : List Event) (p : Port),
      ∃ evs, (p.setCommState K os tr).trace = tr ++ evs ∧
        ∀ ev ∈ evs, ∀ h dcb, ev.call = Call.SetCommState h dcb → dcb.Flags = 0x1011) := by
  have hb : ∀ (b : Bool) (n : Nat), n < 32 → Get_bit b n = b.toNat <<< n := by
    intro b n hn
    unfold Get_bit
    have h1 : (if b = true then 1 else 0) = b.toNat := by cases b <;> rfl
    simp only [h1]
    apply Nat.mod_eq_of_lt
    rw [Nat.shiftLeft_eq]
    have hp : 2 ^ n < 2 ^ 32 := Nat.pow_lt_pow_right (by norm_num) hn
    cases b
    · simp
    · simpa using hp
  have h2 : ∀ (x n : Nat), n + 2 ≤ 32 → Get_bit2 x n = (x % 4) <<< n := by
    intro x n hn
    unfold Get_bit2
    have h1 : x &&& 0x03 = x % 4 := Nat.and_pow_two_sub_one_eq_mod x 2
    simp only [h1]
    apply Nat.mod_eq_of_lt
    rw [Nat.shiftLeft_eq]
    have hx : x % 4 < 2 ^ 2 := Nat.mod_lt _ (by norm_num)
    calc x % 4 * 2 ^ n < 2 ^ 2 * 2 ^ n :=
          Nat.mul_lt_mul_of_pos_right hx (Nat.two_pow_pos n)
      _ = 2 ^ (2 + n) := (Nat.pow_add 2 2 n).symm
      _ ≤ 2 ^ 32 := Nat.pow_le_pow_right (by norm_num) (by omega)
  refine ⟨?_, ?_, by decide, ?_⟩
  · unfold _DCB_Flags.Get
    simp only [Nat.zero_or]
    rw [hb _ 0 (by norm_num), hb _ 1 (by norm_num), hb _ 2 (by norm_num),
      hb _ 3 (by norm_num), h2 _ 4 (by norm_num), hb _ 6 (by norm_num),
      hb _ 7 (by norm_num), hb _ 8 (by norm_num), hb _ 9 (by norm_num),
      hb _ 10 (by norm_num), hb _ 11 (by norm_num), h2 _ 12 (by norm_num),
      hb _ 14 (by norm_num)]
  · intro i hi
    apply Nat.testBit_lt_two_pow
    calc f.Get < 2 ^ 15 := Get_lt f
      _ ≤ 2 ^ i := Nat.pow_le_pow_right (by norm_num) hi
  · intro K os tr p
    have hflags : setCommState_flags.Get = 0x1011 := by decide
    unfold Port.setCommState _GetCommState _SetCommState
    simp only [hflags]
    split
    · exact ⟨_, rfl, by simp⟩
    · split
      · exact ⟨_, rfl, by simp⟩
      · split
        · exact ⟨_, rfl, by simp⟩
        · split
          · exact ⟨_, rfl, by simp⟩
          · split
            · exact ⟨_, rfl, by simp⟩
            · refine ⟨_, List.append_assoc _ _ _, ?_⟩
              intro ev hev h dcb hc
              simp at hev
              rcases hev with rfl | rfl
              · simp at hc
              · simp at hc
                rw [← hc.2]

/-! ## The steps of `open`, case by case -/

theorem syscallErr_eq_none (os : OS) (r0 e1 : Nat) : syscallErr os r0 e1 = none ↔ r0 ≠ 0 := by
  unfold syscallErr
  by_cases h : r0 = 0
  · by_cases h1 : e1 = 0 <;> simp [h, h1]
  · simp [h]

theorem openHandle_eq (os : OS) (tr : List Event) (p : Port) :
    p.openHandle os tr =
      if hasNUL p.deviceName then
        { err := some (GoError.errno os.EINVAL), port := p, trace := tr }
      else
        { err := (os.CreateFile tr p.deviceName (GENERIC_READ ||| GENERIC_WRITE) 0 OPEN_EXISTING
                    FILE_ATTRIBUTE_NORMAL 0).2
          port := { p with handle := (os.CreateFile tr p.deviceName
                    (GENERIC_READ ||| GENERIC_WRITE) 0 OPEN_EXISTING FILE_ATTRIBUTE_NORMAL 0).1 }
          trace := tr ++ [⟨Call.CreateFile p.deviceName (GENERIC_READ ||| GENERIC_WRITE) 0
                    OPEN_EXISTING FILE_ATTRIBUTE_NORMAL 0,
                    (os.CreateFile tr p.deviceName (GENERIC_READ ||| GENERIC_WRITE) 0 OPEN_EXISTING
                      FILE_ATTRIBUTE_NORMAL 0).2,
                    Reply.handle (os.CreateFile tr p.deviceName (GENERIC_READ ||| GENERIC_WRITE) 0
                      OPEN_EXISTING FILE_ATTRIBUTE_NORMAL 0).1⟩] } := rfl

/-- The outcomes of `openHandle`: the name conversion fails and no call is made, or
`CreateFile` is the one call and its error, as the OS answered, is the result. -/
theorem openHandle_cases (os : OS) (tr : List Event) (p : Port) :
    (p.openHandle os tr).port.config = p.config ∧
    ((hasNUL p.deviceName = true ∧ (p.openHandle os tr).trace = tr ∧
        (p.openHandle os tr).err = some (GoError.errno os.EINVAL)) ∨
     (hasNUL p.deviceName = false ∧ ∃ e h,
        os.answer tr (Call.CreateFile p.deviceName (GENERIC_READ ||| GENERIC_WRITE) 0
          OPEN_EXISTING FILE_ATTRIBUTE_NORMAL 0) = (e, Reply.handle h) ∧
        (p.openHandle os tr).trace =
          tr ++ [⟨Call.CreateFile p.deviceName (GENERIC_READ ||| GENERIC_WRITE) 0 OPEN_EXISTING
                    FILE_ATTRIBUTE_NORMAL 0, e, Reply.handle h⟩] ∧
        (p.openHandle os tr).err = e ∧ (p.openHandle os tr).port.handle = h)) := by
  rw [openHandle_eq]
  simp only [OS.answer]
  generalize os.CreateFile tr p.deviceName (GENERIC_READ ||| GENERIC_WRITE) 0 OPEN_EXISTING
    FILE_ATTRIBUTE_NORMAL 0 = c
  cases h : hasNUL p.deviceName
  · exact ⟨by simp, Or.inr ⟨rfl, c.2, c.1, rfl, by simp, by simp, by simp⟩⟩
  · exact ⟨by simp, Or.inl ⟨rfl, by simp, by simp⟩⟩

/-- The outcomes of `setTimeouts`, with the OS's answers. -/
theorem setTimeouts_cases (os : OS) (tr : List Event) (p : Port) :
    (p.setTimeouts os tr).port = p ∧
    ((∃ e, os.answer tr (Call.SetCommTimeouts p.handle p.timeouts) = (some e, Reply.nothing) ∧
        (p.setTimeouts os tr).trace =
          tr ++ [⟨Call.SetCommTimeouts p.handle p.timeouts, some e, Reply.nothing⟩] ∧
        (p.setTimeouts os tr).err = some e) ∨
     (∃ e rb, os.answer tr (Call.SetCommTimeouts p.handle p.timeouts) = (none, Reply.nothing) ∧
        os.answer (tr ++ [⟨Call.SetCommTimeouts p.handle p.timeouts, none, Reply.nothing⟩])
          (Call.GetCommTimeouts p.handle ⟨0, 0, 0, 0, 0⟩) = (some e, Reply.timeouts rb) ∧
        (p.setTimeouts os tr).trace =
          tr ++ [⟨Call.SetCommTimeouts p.handle p.timeouts, none, Reply.nothing⟩,
                 ⟨Call.GetCommTimeouts p.handle ⟨0, 0, 0, 0, 0⟩, some e, Reply.timeouts rb⟩] ∧
        (p.setTimeouts os tr).err = some e) ∨
     (∃ rb, rb ≠ p.timeouts ∧
        os.answer tr (Call.SetCommTimeouts p.handle p.timeouts) = (none, Reply.nothing) ∧
        os.answer (tr ++ [⟨Call.SetCommTimeouts p.handle p.timeouts, none, Reply.nothing⟩])
          (Call.GetCommTimeouts p.handle ⟨0, 0, 0, 0, 0⟩) = (none, Reply.timeouts rb) ∧
        (p.setTimeouts os tr).trace =
          tr ++ [⟨Call.SetCommTimeouts p.handle p.timeouts, none, Reply.nothing⟩,
                 ⟨Call.GetCommTimeouts p.handle ⟨0, 0, 0, 0, 0⟩, none, Reply.timeouts rb⟩] ∧
        (p.setTimeouts os tr).err = some (timeoutsOverridden p.timeouts rb)) ∨
     (os.answer tr (Call.SetCommTimeouts p.handle p.timeouts) = (none, Reply.nothing) ∧
        os.answer (tr ++ [⟨Call.SetCommTimeouts p.handle p.timeouts, none, Reply.nothing⟩])
          (Call.GetCommTimeouts p.handle ⟨0, 0, 0, 0, 0⟩) =
            (none, Reply.timeouts p.timeouts) ∧
        (p.setTimeouts os tr).trace =
          tr ++ [⟨Call.SetCommTimeouts p.handle p.timeouts, none, Reply.nothing⟩,
                 ⟨Call.GetCommTimeouts p.handle ⟨0, 0, 0, 0, 0⟩, none,
                   Reply.timeouts p.timeouts⟩] ∧
        (p.setTimeouts os tr).err = none)) := by
  simp only [OS.answer]
  rcases h1 : syscallErr os (os.SetCommTimeouts tr p.handle p.timeouts).1
      (os.SetCommTimeouts tr p.handle p.timeouts).2 with _ | e
  · generalize hg : os.GetCommTimeouts (tr ++ [⟨Call.SetCommTimeouts p.handle p.timeouts, none,
          Reply.nothing⟩]) p.handle ⟨0, 0, 0, 0, 0⟩ = g
    rcases h2 : syscallErr os g.2.1 g.2.2 with _ | e
    · by_cases h3 : p.timeouts = g.1
      · refine ⟨?_, Or.inr (Or.inr (Or.inr ⟨rfl, ?_, ?_, ?_⟩))⟩ <;>
          simp [Port.setTimeouts, _SetCommTimeouts, _GetCommTimeouts, h1, hg, h2, ← h3]
      · refine ⟨?_, Or.inr (Or.inr (Or.inl ⟨g.1, fun h => h3 h.symm, rfl, rfl, ?_, ?_⟩))⟩ <;>
          simp [Port.setTimeouts, _SetCommTimeouts, _GetCommTimeouts, h1, hg, h2, h3]
    · refine ⟨?_, Or.inr (Or.inl ⟨e, g.1, rfl, rfl, ?_, ?_⟩)⟩ <;>
        simp [Port.setTimeouts, _SetCommTimeouts, _GetCommTimeouts, h1, hg, h2]
  · refine ⟨?_, Or.inl ⟨e, rfl, ?_, ?_⟩⟩ <;>
      simp [Port.setTimeouts, _SetCommTimeouts, h1]

/-- The outcomes of `setCommState`, with the OS's answers. -/
theorem setCommState_cases (K : Consts) (os : OS) (tr : List Event) (p : Port) :
    (p.setCommState K os tr).port = p ∧
    ((∃ e d, os.answer tr (Call.GetCommState p.handle dcb28) = (some e, Reply.dcb d) ∧
        (p.setCommState K os tr).trace =
          tr ++ [⟨Call.GetCommState p.handle dcb28, some e, Reply.dcb d⟩] ∧
        (p.setCommState K os tr).err = some e) ∨
     (∃ d, unsupported K p.config ≠ none ∧
        os.answer tr (Call.GetCommState p.handle dcb28) = (none, Reply.dcb d) ∧
        (p.setCommState K os tr).trace =
          tr ++ [⟨Call.GetCommState p.handle dcb28, none, Reply.dcb d⟩] ∧
        (p.setCommState K os tr).err = unsupported K p.config) ∨
     (∃ d, unsupported K p.config = none ∧
        os.answer tr (Call.GetCommState p.handle dcb28) = (none, Reply.dcb d) ∧
        os.answer (tr ++ [⟨Call.GetCommState p.handle dcb28, none, Reply.dcb d⟩])
          (Call.SetCommState p.handle (controlBlock K p.config d)) =
            ((p.setCommState K os tr).err, Reply.nothing) ∧
        (p.setCommState K os tr).trace =
          tr ++ [⟨Call.GetCommState p.handle dcb28, none, Reply.dcb d⟩,
                 ⟨Call.SetCommState p.handle (controlBlock K p.config d),
                    (p.setCommState K os tr).err, Reply.nothing⟩])) := by
  have hflags : setCommState_flags.Get = 0x1011 := by decide
  simp only [OS.answer]
  generalize hg : os.GetCommState tr p.handle dcb28 = g
  have hg' : os.GetCommState tr p.handle ⟨28, 0, 0, 0, 0, 0, 0, 0, 0, 0, 0, 0, 0, 0, 0⟩ = g := hg
  rcases h1 : syscallErr os g.2.1 g.2.2 with _ | e
  · rcases hb : (settings K).lookup p.config.BaudRate with _ | vb
    · refine ⟨?_, Or.inr (Or.inl ⟨g.1, ?_, rfl, ?_, ?_⟩)⟩ <;>
        simp [Port.setCommState, _GetCommState, hg', h1, hb, dcb28, unsupported]
    · rcases hd : (settings K).lookup p.config.DataBits with _ | vd
      · refine ⟨?_, Or.inr (Or.inl ⟨g.1, ?_, rfl, ?_, ?_⟩)⟩ <;>
          simp [Port.setCommState, _GetCommState, hg', h1, hb, hd, dcb28, unsupported]
      · rcases hp : (settings K).lookup p.config.Parity with _ | vp
        · refine ⟨?_, Or.inr (Or.inl ⟨g.1, ?_, rfl, ?_, ?_⟩)⟩ <;>
            simp [Port.setCommState, _GetCommState, hg', h1, hb, hd, hp, dcb28, unsupported]
        · rcases hs : (settings K).lookup p.config.StopBits with _ | vs
          · refine ⟨?_, Or.inr (Or.inl ⟨g.1, ?_, rfl, ?_, ?_⟩)⟩ <;>
              simp [Port.setCommState, _GetCommState, hg', h1, hb, hd, hp, hs, dcb28,
                unsupported]
          · refine ⟨?_, Or.inr (Or.inr ⟨g.1, ?_, rfl, ?_, ?_⟩)⟩
            · simp [Port.setCommState, _GetCommState, _SetCommState, hg', h1, hb, hd, hp, hs]
            · simp [unsupported, hb, hd, hp, hs]
            · simp [Port.setCommState, _GetCommState, _SetCommState, hg', h1, hb, hd, hp,
                hs, dcb28, hflags, controlBlock, settingCode]
            · simp [Port.setCommState, _GetCommState, _SetCommState, hg', h1, hb, hd, hp,
                hs, dcb28, hflags, controlBlock, settingCode]
  · refine ⟨?_, Or.inl ⟨e, g.1, rfl, ?_, ?_⟩⟩ <;>
      simp [Port.setCommState, _GetCommState, hg', h1, dcb28]

/-- The outcomes of `reset`, with the OS's answers: the purge is issued with all four
flags (0x0F). -/
theorem reset_cases (os : OS) (tr : List Event) (p : Port) :
    (p.reset os tr).port = p ∧
    ((∃ e, os.answer tr (Call.FlushFileBuffers p.handle) = (some e, Reply.nothing) ∧
        (p.reset os tr).trace =
          tr ++ [⟨Call.FlushFileBuffers p.handle, some e, Reply.nothing⟩] ∧
        (p.reset os tr).err = some e) ∨
     (∃ e, os.answer tr (Call.FlushFileBuffers p.handle) = (none, Reply.nothing) ∧
        os.answer (tr ++ [⟨Call.FlushFileBuffers p.handle, none, Reply.nothing⟩])
          (Call.PurgeComm p.handle 0x0F) = (some e, Reply.nothing) ∧
        (p.reset os tr).trace =
          tr ++ [⟨Call.FlushFileBuffers p.handle, none, Reply.nothing⟩,
                 ⟨Call.PurgeComm p.handle 0x0F, some e, Reply.nothing⟩] ∧
        (p.reset os tr).err = some e) ∨
     (∃ e, os.answer tr (Call.FlushFileBuffers p.handle) = (none, Reply.nothing) ∧
        os.answer (tr ++ [⟨Call.FlushFileBuffers p.handle, none, Reply.nothing⟩])
          (Call.PurgeComm p.handle 0x0F) = (none, Reply.nothing) ∧
        os.answer (tr ++ [⟨Call.FlushFileBuffers p.handle, none, Reply.nothing⟩,
                 ⟨Call.PurgeComm p.handle 0x0F, none, Reply.nothing⟩])
          (Call.ClearCommError p.handle) = (e, Reply.nothing) ∧
        (p.reset os tr).trace =
          tr ++ [⟨Call.FlushFileBuffers p.handle, none, Reply.nothing⟩,
                 ⟨Call.PurgeComm p.handle 0x0F, none, Reply.nothing⟩,
                 ⟨Call.ClearCommError p.handle, e, Reply.nothing⟩] ∧
        (p.reset os tr).err = e)) := by
  have hflags : (_PURGE_TXABORT ||| _PURGE_RXABORT ||| _PURGE_TXCLEAR ||| _PURGE_RXCLEAR) = 0x0F := by
    decide
  simp only [OS.answer]
  rcases h1 : os.FlushFileBuffers tr p.handle with _ | e
  · generalize hg : os.PurgeComm (tr ++ [⟨Call.FlushFileBuffers p.handle, none,
          Reply.nothing⟩]) p.handle 0x0F = g
    rcases h2 : syscallErr os g.1 g.2 with _ | e
    · generalize hc : os.ClearCommError (tr ++ [⟨Call.FlushFileBuffers p.handle, none,
          Reply.nothing⟩, ⟨Call.PurgeComm p.handle 0x0F, none, Reply.nothing⟩]) p.handle = c
      rcases h3 : syscallErr os c.1 c.2 with _ | e
      · refine ⟨?_, Or.inr (Or.inr ⟨none, rfl, rfl, ?_, ?_, ?_⟩)⟩ <;>
          simp [Port.reset, FlushFileBuffers, _PurgeComm, _ClearCommError, h1, hflags, hg, h2,
            hc, h3]
      · refine ⟨?_, Or.inr (Or.inr ⟨some e, rfl, rfl, ?_, ?_, ?_⟩)⟩ <;>
          simp [Port.reset, FlushFileBuffers, _PurgeComm, _ClearCommError, h1, hflags, hg, h2,
            hc, h3]
    · refine ⟨?_, Or.inr (Or.inl ⟨e, rfl, rfl, ?_, ?_⟩)⟩ <;>
        simp [Port.reset, FlushFileBuffers, _PurgeComm, h1, hflags, hg, h2]
  · refine ⟨?_, Or.inl ⟨e, rfl, ?_, ?_⟩⟩ <;>
      simp [Port.reset, FlushFileBuffers, h1]

/-- A successful `open` had all four settings in the table. -/
theorem open_nil_supported (K : Consts) (os : OS) (tr : List Event) (p : Port)
    (h : (p.open K os tr).err = none) : unsupported K p.config = none := by
  obtain ⟨hcfg1, -⟩ := openHandle_cases os tr p
  unfold Port.open at h
  simp only [] at h
  generalize p.openHandle os tr = r1 at hcfg1 h
  obtain ⟨hp2, -⟩ := setTimeouts_cases os r1.trace r1.port
  generalize r1.port.setTimeouts os r1.trace = r2 at hp2 h
  obtain ⟨-, h3⟩ := setCommState_cases K os r2.trace r2.port
  generalize r2.port.setCommState K os r2.trace = r3 at h3 h
  rw [hp2, hcfg1] at h3
  rcases h1 : r1.err with _ | e1
  · rcases h2 : r2.err with _ | e2
    · rcases h3e : r3.err with _ | e3
      · rcases h3 with ⟨e, d, -, -, herr⟩ | ⟨d, hun, -, -, herr⟩ | ⟨d, hun, -⟩
        · rw [h3e] at herr
          cases herr
        · rw [h3e] at herr
          exact herr.symm
        · exact hun
      · simp [h1, h2, h3e] at h
    · simp [h1, h2] at h
  · simp [h1] at h

theorem lookup_settings_none (K : Consts) (k : Int) :
    (settings K).lookup k = none ↔ k ∉ K.keys := by
  rw [List.lookup_eq_none_iff]
  unfold Consts.keys
  rw [List.mem_map]
  constructor
  · rintro h ⟨x, hx, hk⟩
    have h1 := h x hx
    rw [bne_iff_ne] at h1
    exact h1 hk.symm
  · intro h x hx
    rw [bne_iff_ne]
    intro hk
    exact h ⟨x, hx, hk.symm⟩

theorem unsupported_eq_none (K : Consts) (cfg : Config) :
    unsupported K cfg = none ↔
      (cfg.BaudRate ∈ K.keys ∧ cfg.DataBits ∈ K.keys ∧ cfg.Parity ∈ K.keys ∧
        cfg.StopBits ∈ K.keys) := by
  unfold unsupported
  simp only [Option.isNone_iff_eq_none, lookup_settings_none]
  by_cases hb : cfg.BaudRate ∈ K.keys <;> by_cases hd : cfg.DataBits ∈ K.keys <;>
    by_cases hp : cfg.Parity ∈ K.keys <;> by_cases hs : cfg.StopBits ∈ K.keys <;>
    simp [hb, hd, hp, hs]

/-! ## The open/reset sequence (C6) -/

theorem timeouts_congr (p q : Port) (h : q.config = p.config) : q.timeouts = p.timeouts := by
  unfold Port.timeouts
  rw [h]

/-- Events that follow the state machine do so at every position. -/
theorem follows_at (K : Consts) (os : OS) (p : Port) (tr : List Event) :
    ∀ (evs pre0 : List Event), Follows K os p tr pre0 evs →
      ∀ pre ev post, evs = pre ++ ev :: post →
        openNext K os p (pre0 ++ pre) = Next.call ev.call ∧
        os.answer (tr ++ (pre0 ++ pre)) ev.call = (ev.err, ev.reply) := by
  intro evs
  induction evs with
  | nil =>
    intro pre0 _ pre ev post h
    simp at h
  | cons a rest ih =>
    intro pre0 hf pre ev post h
    obtain ⟨h1, h2, h3⟩ := hf
    rcases pre with _ | ⟨b, pre⟩
    · simp only [List.nil_append, List.cons.injEq] at h
      obtain ⟨rfl, -⟩ := h
      simpa using ⟨h1, h2⟩
    · simp only [List.cons_append, List.cons.injEq] at h
      obtain ⟨rfl, h⟩ := h
      have := ih (pre0 ++ [a]) h3 pre ev post h
      simpa using this

theorem of_follows (K : Consts) (os : OS) (p : Port) (tr evs : List Event)
    (hf : Follows K os p tr [] evs) :
    ∀ pre ev post, evs = pre ++ ev :: post →
      openNext K os p pre = Next.call ev.call ∧
      os.answer (tr ++ pre) ev.call = (ev.err, ev.reply) := by
  intro pre ev post h
  simpa using follows_at K os p tr evs [] hf pre ev post h

/-- A returned error is the machine's failure behind its context. -/
theorem fail_conj (os : OS) (x : GoError) (c : String) (i : GoError)
    (h : x = GoError.errorf (c ++ ": " ++ i.Error os.errnoText)) :
    ∀ e, x = e ↔ ∃ context inner, (c = context ∧ i = inner) ∧
      e = GoError.errorf (context ++ ": " ++ inner.Error os.errnoText) := by
  intro e
  constructor
  · rintro rfl
    exact ⟨c, i, ⟨rfl, rfl⟩, h⟩
  · rintro ⟨_, _, ⟨rfl, rfl⟩, rfl⟩
    exact h

/-- C6: for every Config and every behaviour of the OS, `open` runs the open/reset state
machine: every call it issues is the one the machine prescribes after the calls before it
(so it is issued only after every earlier call succeeded and every earlier check passed),
with the OS's answer recorded; `open` returns nil exactly when the machine has finished,
and returns an error exactly when the machine stops at a failing step, the error being
that step's error behind that step's context.  Hence the calls are a prefix of
open-handle, set-timeouts, get-timeouts, get-control-block, set-control-block, flush,
purge 0x0F, clear-error, none is a close-handle, only the last one can have failed, and nil
is returned exactly when all eight ran and succeeded, every check having passed. -/
theorem C6_open_sequence (K : Consts) (os : OS) (tr : List Event) (p : Port) :
    ∃ evs, (p.open K os tr).trace = tr ++ evs ∧
      (∀ pre ev post, evs = pre ++ ev :: post →
        openNext K os p pre = Next.call ev.call ∧
        os.answer (tr ++ pre) ev.call = (ev.err, ev.reply)) ∧
      ((p.open K os tr).err = none ↔ openNext K os p evs = Next.finished) ∧
      (∀ e, (p.open K os tr).err = some e ↔
        ∃ context inner, openNext K os p evs = Next.fail context inner ∧
          e = GoError.errorf (context ++ ": " ++ inner.Error os.errnoText)) ∧
      evs.map Event.kind <+: openSequence ∧
      (∀ ev ∈ evs, ev.kind ≠ Kind.closeHandle) ∧
      (∀ ev ∈ evs.dropLast, ev.err = none) ∧
      ((p.open K os tr).err = none ↔
        (evs.map Event.kind = openSequence ∧ ∀ ev ∈ evs, ev.err = none)) ∧
      ((p.open K os tr).err = none →
        hasNUL p.deviceName = false ∧ unsupported K p.config = none ∧
        ∀ ev ∈ evs, ∀ rb, ev.reply = Reply.timeouts rb → rb = p.timeouts) := by
  obtain ⟨hcfg1, h1⟩ := openHandle_cases os tr p
  unfold Port.open
  simp only []
  generalize p.openHandle os tr = r1 at hcfg1 h1 ⊢
  obtain ⟨hp2, h2⟩ := setTimeouts_cases os r1.trace r1.port
  have ht : r1.port.timeouts = p.timeouts := timeouts_congr p r1.port hcfg1
  generalize r1.port.setTimeouts os r1.trace = r2 at hp2 h2 ⊢
  rw [ht] at h2
  obtain ⟨hp3, h3⟩ := setCommState_cases K os r2.trace r2.port
  generalize r2.port.setCommState K os r2.trace = r3 at hp3 h3 ⊢
  rw [hp2, hcfg1] at h3
  obtain ⟨hp4, h4⟩ := reset_cases os r3.trace r3.port
  generalize r3.port.reset os r3.trace = r4 at hp4 h4 ⊢
  rw [hp3, hp2] at h4
  rcases h1 with ⟨hnul, htr1, herr1⟩ | ⟨hnul, e1, h, ha0, htr1, herr1, hh⟩
  · simp only [herr1]
    refine ⟨[], by simp [htr1], of_follows K os p tr _ (by simp [Follows]), ?_⟩
    simp [openSequence, openNext, hnul, hcfg1]
    exact fail_conj os _ _ _ rfl
  · rw [hh] at h2 h3 h4
    rcases e1 with _ | e1
    swap
    · simp only [herr1]
      refine ⟨_, htr1, of_follows K os p tr _ ?_, ?_⟩
      · simp [Follows, openNext, hnul, ha0]
      · simp [openSequence, openNext, Event.kind, Call.kind, hcfg1]
        exact fail_conj os _ _ _ rfl
    simp only [herr1]
    rw [htr1] at h2
    simp only [List.append_assoc, List.cons_append, List.nil_append] at h2
    rcases h2 with ⟨e2, ha1, htr2, herr2⟩ | ⟨e2, rb, ha1, ha2, htr2, herr2⟩ |
      ⟨rb, hrb, ha1, ha2, htr2, herr2⟩ | ⟨ha1, ha2, htr2, herr2⟩
    · simp only [herr2]
      refine ⟨_, htr2, of_follows K os p tr _ ?_, ?_⟩
      · simp [Follows, openNext, Event.handle, hnul, ha0, ha1]
      · simp [openSequence, openNext, Event.kind, Call.kind]
        exact fail_conj os _ _ _ rfl
    · simp only [herr2]
      refine ⟨_, htr2, of_follows K os p tr _ ?_, ?_⟩
      · simp [Follows, openNext, Event.handle, hnul, ha0, ha1, ha2]
      · simp [openSequence, openNext, Event.kind, Call.kind]
        exact fail_conj os _ _ _ rfl
    · simp only [herr2]
      refine ⟨_, htr2, of_follows K os p tr _ ?_, ?_⟩
      · simp [Follows, openNext, Event.handle, hnul, ha0, ha1, ha2]
      · simp [openSequence, openNext, Event.kind, Call.kind, Event.readback,
          hrb]
        exact fail_conj os _ _ _ rfl
    · simp only [herr2]
      rw [htr2] at h3
      simp only [List.append_assoc, List.cons_append, List.nil_append] at h3
      rcases h3 with ⟨e3, d, ha3, htr3, herr3⟩ | ⟨d, hun, ha3, htr3, herr3⟩ |
        ⟨d, hun, ha3, ha4, htr3⟩
      · simp only [herr3]
        refine ⟨_, htr3, of_follows K os p tr _ ?_, ?_⟩
        · simp [Follows, openNext, Event.handle, Event.readback, hnul, ha0, ha1, ha2, ha3]
        · simp [openSequence, openNext, Event.kind, Call.kind]
          exact fail_conj os _ _ _ rfl
      · obtain ⟨e3, he3⟩ := Option.ne_none_iff_exists'.mp hun
        rw [he3] at herr3
        simp only [herr3]
        refine ⟨_, htr3, of_follows K os p tr _ ?_, ?_⟩
        · simp [Follows, openNext, Event.handle, Event.readback, hnul, ha0, ha1, ha2, ha3]
        · simp [openSequence, openNext, Event.kind, Call.kind, he3]
          exact fail_conj os _ _ _ rfl
      · rw [htr3] at h4
        simp only [List.append_assoc, List.cons_append, List.nil_append] at h4
        rcases hr3 : r3.err with _ | e3
        swap
        · simp only []
          rw [hr3] at htr3 ha4
          refine ⟨_, htr3, of_follows K os p tr _ ?_, ?_⟩
          · simp [Follows, openNext, Event.handle, Event.readback, Event.block, hnul, hun,
              ha0, ha1, ha2, ha3, ha4]
          · simp [openSequence, openNext, Event.kind, Call.kind]
            exact fail_conj os _ _ _ rfl
        simp only []
        rw [hr3] at htr3 h4 ha4
        rcases h4 with ⟨e4, ha5, htr4, herr4⟩ | ⟨e4, ha5, ha6, htr4, herr4⟩ |
          ⟨e4, ha5, ha6, ha7, htr4, herr4⟩
        · simp only [herr4]
          refine ⟨_, htr4, of_follows K os p tr _ ?_, ?_⟩
          · simp [Follows, openNext, Event.handle, Event.readback, Event.block, hnul, hun,
              ha0, ha1, ha2, ha3, ha4, ha5]
          · simp [openSequence, openNext, Event.kind, Call.kind]
            exact fail_conj os _ _ _ rfl
        · simp only [herr4]
          refine ⟨_, htr4, of_follows K os p tr _ ?_, ?_⟩
          · simp [Follows, openNext, Event.handle, Event.readback, Event.block, hnul, hun,
              ha0, ha1, ha2, ha3, ha4, ha5, ha6]
          · simp [openSequence, openNext, Event.kind, Call.kind]
            exact fail_conj os _ _ _ rfl
        · rcases e4 with _ | e4
          · simp only [herr4]
            refine ⟨_, htr4, of_follows K os p tr _ ?_, ?_⟩
            · simp [Follows, openNext, Event.handle, Event.readback, Event.block, hnul, hun,
                ha0, ha1, ha2, ha3, ha4, ha5, ha6, ha7]
            · simp [openSequence, openNext, Event.kind, Call.kind, hnul, hun]
          · simp only [herr4]
            refine ⟨_, htr4, of_follows K os p tr _ ?_, ?_⟩
            · simp [Follows, openNext, Event.handle, Event.readback, Event.block, hnul, hun,
                ha0, ha1, ha2, ha3, ha4, ha5, ha6, ha7]
            · simp [openSequence, openNext, Event.kind, Call.kind]
              exact fail_conj os _ _ _ rfl

/-! ## Configuration translator (C4) -/

/-- What `setCommState` does reject: once `GetCommState` has succeeded, it fails with the
unsupported-setting error naming the first of BaudRate, DataBits, Parity, StopBits (in
that order) whose value is no key of `settings` at all, and issues no `SetCommState`; with
such a value `Port.Open` fails whatever the OS answers; when all four values are keys the
result is that of the `SetCommState` call. -/
theorem setCommState_unlisted_rejected (K : Consts) (os : OS) (tr : List Event) (p : Port)
    (hget : (os.GetCommState tr p.handle dcb28).2.1 ≠ 0) :
    (p.config.BaudRate ∉ K.keys →
      (p.setCommState K os tr).err =
        some (GoError.errorf ("unsupported baud rate: " ++ toString p.config.BaudRate))) ∧
    (p.config.BaudRate ∈ K.keys → p.config.DataBits ∉ K.keys →
      (p.setCommState K os tr).err =
        some (GoError.errorf ("unsupported data bits: " ++ toString p.config.DataBits))) ∧
    (p.config.BaudRate ∈ K.keys → p.config.DataBits ∈ K.keys → p.config.Parity ∉ K.keys →
      (p.setCommState K os tr).err =
        some (GoError.errorf ("unsupported parity: " ++ toString p.config.Parity))) ∧
    (p.config.BaudRate ∈ K.keys → p.config.DataBits ∈ K.keys → p.config.Parity ∈ K.keys →
      p.config.StopBits ∉ K.keys →
      (p.setCommState K os tr).err =
        some (GoError.errorf ("unsupported stop bits: " ++ toString p.config.StopBits))) ∧
    ((p.config.BaudRate ∉ K.keys ∨ p.config.DataBits ∉ K.keys ∨ p.config.Parity ∉ K.keys ∨
        p.config.StopBits ∉ K.keys) →
      (∃ d, (p.setCommState K os tr).trace =
          tr ++ [⟨Call.GetCommState p.handle dcb28, none, Reply.dcb d⟩]) ∧
      ∀ (os' : OS) (tr' : List Event), (p.Open K os' tr').err ≠ none) ∧
    (p.config.BaudRate ∈ K.keys → p.config.DataBits ∈ K.keys → p.config.Parity ∈ K.keys →
      p.config.StopBits ∈ K.keys →
      ∃ d d', (p.setCommState K os tr).trace =
          tr ++ [⟨Call.GetCommState p.handle dcb28, none, Reply.dcb d⟩,
                 ⟨Call.SetCommState p.handle d', (p.setCommState K os tr).err,
                   Reply.nothing⟩]) := by
  have hok : syscallErr os
      (os.GetCommState tr p.handle ⟨28, 0, 0, 0, 0, 0, 0, 0, 0, 0, 0, 0, 0, 0, 0⟩).2.1
      (os.GetCommState tr p.handle ⟨28, 0, 0, 0, 0, 0, 0, 0, 0, 0, 0, 0, 0, 0, 0⟩).2.2 = none :=
    (syscallErr_eq_none _ _ _).mpr hget
  have hopen : ¬ (p.config.BaudRate ∈ K.keys ∧ p.config.DataBits ∈ K.keys ∧
      p.config.Parity ∈ K.keys ∧ p.config.StopBits ∈ K.keys) →
      ∀ (os' : OS) (tr' : List Event), (p.Open K os' tr').err ≠ none := by
    intro hnot os' tr' hnil
    exact hnot ((unsupported_eq_none K p.config).mp (open_nil_supported K os' tr' p hnil))
  have key : ∀ k : Int, (k ∈ K.keys ↔ (settings K).lookup k ≠ none) := by
    intro k
    rw [Ne, lookup_settings_none, not_not]
  rcases hb : (settings K).lookup p.config.BaudRate with _ | vb
  · have hbk : p.config.BaudRate ∉ K.keys := by rw [key, hb]; simp
    refine ⟨?_, ?_, ?_, ?_, ?_, ?_⟩
    · intro _
      simp [Port.setCommState, _GetCommState, hok, hb]
    · intro h; exact absurd h hbk
    · intro h; exact absurd h hbk
    · intro h; exact absurd h hbk
    · intro _
      refine ⟨⟨(os.GetCommState tr p.handle dcb28).1, ?_⟩, hopen (fun h => hbk h.1)⟩
      simp [Port.setCommState, _GetCommState, hok, hb, dcb28]
    · intro h; exact absurd h hbk
  · have hbk : p.config.BaudRate ∈ K.keys := by rw [key, hb]; simp
    rcases hd : (settings K).lookup p.config.DataBits with _ | vd
    · have hdk : p.config.DataBits ∉ K.keys := by rw [key, hd]; simp
      refine ⟨?_, ?_, ?_, ?_, ?_, ?_⟩
      · intro h; exact absurd hbk h
      · intro _ _
        simp [Port.setCommState, _GetCommState, hok, hb, hd]
      · intro _ h; exact absurd h hdk
      · intro _ h; exact absurd h hdk
      · intro _
        refine ⟨⟨(os.GetCommState tr p.handle dcb28).1, ?_⟩, hopen (fun h => hdk h.2.1)⟩
        simp [Port.setCommState, _GetCommState, hok, hb, hd, dcb28]
      · intro _ h; exact absurd h hdk
    · have hdk : p.config.DataBits ∈ K.keys := by rw [key, hd]; simp
      rcases hp : (settings K).lookup p.config.Parity with _ | vp
      · have hpk : p.config.Parity ∉ K.keys := by rw [key, hp]; simp
        refine ⟨?_, ?_, ?_, ?_, ?_, ?_⟩
        · intro h; exact absurd hbk h
        · intro _ h; exact absurd hdk h
        · intro _ _ _
          simp [Port.setCommState, _GetCommState, hok, hb, hd, hp]
        · intro _ _ h; exact absurd h hpk
        · intro _
          refine ⟨⟨(os.GetCommState tr p.handle dcb28).1, ?_⟩, hopen (fun h => hpk h.2.2.1)⟩
          simp [Port.setCommState, _GetCommState, hok, hb, hd, hp, dcb28]
        · intro _ _ h; exact absurd h hpk
      · have hpk : p.config.Parity ∈ K.keys := by rw [key, hp]; simp
        rcases hs : (settings K).lookup p.config.StopBits with _ | vs
        · have hsk : p.config.StopBits ∉ K.keys := by rw [key, hs]; simp
          refine ⟨?_, ?_, ?_, ?_, ?_, ?_⟩
          · intro h; exact absurd hbk h
          · intro _ h; exact absurd hdk h
          · intro _ _ h; exact absurd hpk h
          · intro _ _ _ _
            simp [Port.setCommState, _GetCommState, hok, hb, hd, hp, hs]
          · intro _
            refine ⟨⟨(os.GetCommState tr p.handle dcb28).1, ?_⟩, hopen (fun h => hsk h.2.2.2)⟩
            simp [Port.setCommState, _GetCommState, hok, hb, hd, hp, hs, dcb28]
          · intro _ _ _ h; exact absurd h hsk
        · have hsk : p.config.StopBits ∈ K.keys := by rw [key, hs]; simp
          refine ⟨?_, ?_, ?_, ?_, ?_, ?_⟩
          · intro h; exact absurd hbk h
          · intro _ h; exact absurd hdk h
          · intro _ _ h; exact absurd hpk h
          · intro _ _ _ h; exact absurd hsk h
          · rintro (h | h | h | h)
            · exact absurd hbk h
            · exact absurd hdk h
            · exact absurd hpk h
            · exact absurd hsk h
          · intro _ _ _ _
            refine ⟨(os.GetCommState tr p.handle dcb28).1,
              { (os.GetCommState tr p.handle dcb28).1 with
                  Flags := setCommState_flags.Get, BaudRate := toUint32 vb,
                  ByteSize := toByte vd, Parity := toByte vp, StopBits := toByte vs }, ?_⟩
            simp [Port.setCommState, _GetCommState, _SetCommState, hok, hb, hd, hp, hs, dcb28]

/-- C4 at the failing input: the default Port with `BaudRate` set to the constant
`DataBits_5`, on an OS that accepts every call.  `DataBits_5` is none of the five baud-rate
constants, yet `setCommState` finds it in the shared table, writes 5 into the control
block's `BaudRate`, issues `SetCommState` and returns nil, and `Port.Open` returns nil:
no "unsupported baud rate" error. -/
theorem C4_cross_field_value_accepted (K : Consts) (hK : K.Distinct) :
    (crossFieldPort K).config.BaudRate ∉ K.baudRates ∧
    (crossFieldPort K).setCommState K acceptAll [] =
      { err := none
        port := crossFieldPort K
        trace := [⟨Call.GetCommState 0 dcb28, none, Reply.dcb dcb28⟩,
                  ⟨Call.SetCommState 0
                    { dcb28 with Flags := 0x1011, BaudRate := 5, ByteSize := 8, Parity := 0,
                                 StopBits := 0 }, none, Reply.nothing⟩] } ∧
    ((crossFieldPort K).Open K acceptAll []).err = none := by
  simp only [Consts.Distinct, Consts.keys, settings, List.map, List.nodup_cons, List.mem_cons,
    not_or, List.mem_singleton, List.not_mem_nil, not_false_eq_true, List.nodup_nil,
    and_true] at hK
  obtain ⟨h5, h6, h7, h8, s1, s15, s2, pn, -⟩ := hK
  have nb : ∀ a b : Int, ¬ a = b → (b == a) = false :=
    fun a b h => beq_eq_false_iff_ne.mpr (fun h' => h h'.symm)
  have e1 : (settings K).lookup K.DataBits_5 = some 5 := by simp [settings, List.lookup]
  have e2 : (settings K).lookup K.DataBits_8 = some 8 := by
    have a1 : (K.DataBits_8 == K.DataBits_5) = false := nb _ _ h5.2.2.1
    have a2 : (K.DataBits_8 == K.DataBits_6) = false := nb _ _ h6.2.1
    have a3 : (K.DataBits_8 == K.DataBits_7) = false := nb _ _ h7.1
    simp [settings, List.lookup, a1, a2, a3]
  have e3 : (settings K).lookup K.Parity_None = some 0 := by
    have a1 : (K.Parity_None == K.DataBits_5) = false := nb _ _ h5.2.2.2.2.2.2.1
    have a2 : (K.Parity_None == K.DataBits_6) = false := nb _ _ h6.2.2.2.2.2.1
    have a3 : (K.Parity_None == K.DataBits_7) = false := nb _ _ h7.2.2.2.2.1
    have a4 : (K.Parity_None == K.DataBits_8) = false := nb _ _ h8.2.2.2.1
    have a5 : (K.Parity_None == K.StopBits_1) = false := nb _ _ s1.2.2.1
    have a6 : (K.Parity_None == K.StopBits_1_5) = false := nb _ _ s15.2.1
    have a7 : (K.Parity_None == K.StopBits_2) = false := nb _ _ s2.1
    simp [settings, List.lookup, a1, a2, a3, a4, a5, a6, a7]
  have e4 : (settings K).lookup K.StopBits_1 = some 0 := by
    have a1 : (K.StopBits_1 == K.DataBits_5) = false := nb _ _ h5.2.2.2.1
    have a2 : (K.StopBits_1 == K.DataBits_6) = false := nb _ _ h6.2.2.1
    have a3 : (K.StopBits_1 == K.DataBits_7) = false := nb _ _ h7.2.1
    have a4 : (K.StopBits_1 == K.DataBits_8) = false := nb _ _ h8.1
    simp [settings, List.lookup, a1, a2, a3, a4]
  refine ⟨?_, ?_, ?_⟩
  · simp only [crossFieldPort, Consts.baudRates, List.mem_cons, List.mem_singleton,
      List.not_mem_nil, or_false, not_or]
    exact ⟨h5.2.2.2.2.2.2.2.2.2.2.2.1, h5.2.2.2.2.2.2.2.2.2.2.2.2.1,
      h5.2.2.2.2.2.2.2.2.2.2.2.2.2.1, h5.2.2.2.2.2.2.2.2.2.2.2.2.2.2.1,
      h5.2.2.2.2.2.2.2.2.2.2.2.2.2.2.2⟩
  · have hflags : setCommState_flags.Get = 0x1011 := by decide
    simp [Port.setCommState, _GetCommState, _SetCommState, acceptAll, syscallErr, crossFieldPort,
      NewPort, e1, e2, e3, e4, hflags, dcb28, toUint32, toByte]
  · have hdev : hasNUL pathMarker = false := by decide
    have hpre : HasPrefix "" pathMarker = false := by decide
    simp [Port.Open, Port.open, Port.openHandle, Port.setTimeouts, Port.setCommState, Port.reset,
      _SetCommTimeouts, _GetCommTimeouts, _GetCommState, _SetCommState, FlushFileBuffers,
      _PurgeComm, _ClearCommError, acceptAll, syscallErr, crossFieldPort, NewPort, Port.timeouts,
      e1, e2, e3, e4, hdev, hpre]

/-- Witness for C4: with the sample constants (`DataBits_5 = 5`), `Port.Open` with
`BaudRate = 5` succeeds. -/
theorem C4_cross_field_value_accepted_witness :
    ((crossFieldPort sampleConsts).Open sampleConsts acceptAll []).err = none :=
  (C4_cross_field_value_accepted sampleConsts (by decide)).2.2

/-! ## Timeout negotiation (C5) -/

/-- C5: when the OS set-timeouts and get-timeouts calls both succeed, `setTimeouts` returns
no error if and only if the record read back equals, field by field, the record built from
the Config's five timeout fields; when any field differs it returns the error built from
the requested and the actual record. -/
theorem C5_setTimeouts_readback (os : OS) (tr : List Event) (p : Port)
    (hset : (os.SetCommTimeouts tr p.handle p.timeouts).1 ≠ 0)
    (hget : (os.GetCommTimeouts
      (tr ++ [⟨Call.SetCommTimeouts p.handle p.timeouts, none, Reply.nothing⟩])
      p.handle ⟨0, 0, 0, 0, 0⟩).2.1 ≠ 0) :
    p.timeouts = ⟨p.config.ReadIntervalTimeout, p.config.ReadTotalTimeoutMultiplier,
      p.config.ReadTotalTimeoutConstant, p.config.WriteTotalTimeoutMultiplier,
      p.config.WriteTotalTimeoutConstant⟩ ∧
    ((p.setTimeouts os tr).err = none ↔
      ((os.GetCommTimeouts
          (tr ++ [⟨Call.SetCommTimeouts p.handle p.timeouts, none, Reply.nothing⟩])
          p.handle ⟨0, 0, 0, 0, 0⟩).1.ReadIntervalTimeout = p.config.ReadIntervalTimeout ∧
       (os.GetCommTimeouts
          (tr ++ [⟨Call.SetCommTimeouts p.handle p.timeouts, none, Reply.nothing⟩])
          p.handle ⟨0, 0, 0, 0, 0⟩).1.ReadTotalTimeoutMultiplier =
            p.config.ReadTotalTimeoutMultiplier ∧
       (os.GetCommTimeouts
          (tr ++ [⟨Call.SetCommTimeouts p.handle p.timeouts, none, Reply.nothing⟩])
          p.handle ⟨0, 0, 0, 0, 0⟩).1.ReadTotalTimeoutConstant =
            p.config.ReadTotalTimeoutConstant ∧
       (os.GetCommTimeouts
          (tr ++ [⟨Call.SetCommTimeouts p.handle p.timeouts, none, Reply.nothing⟩])
          p.handle ⟨0, 0, 0, 0, 0⟩).1.WriteTotalTimeoutMultiplier =
            p.config.WriteTotalTimeoutMultiplier ∧
       (os.GetCommTimeouts
          (tr ++ [⟨Call.SetCommTimeouts p.handle p.timeouts, none, Reply.nothing⟩])
          p.handle ⟨0, 0, 0, 0, 0⟩).1.WriteTotalTimeoutConstant =
            p.config.WriteTotalTimeoutConstant)) ∧
    ((os.GetCommTimeouts
        (tr ++ [⟨Call.SetCommTimeouts p.handle p.timeouts, none, Reply.nothing⟩])
        p.handle ⟨0, 0, 0, 0, 0⟩).1 ≠ p.timeouts →
      (p.setTimeouts os tr).err =
        some (GoError.errorf ("timeout settings overridden by serial device:\nrequested:\n" ++
          p.timeouts.String ++ "\nactual:\n" ++
          (os.GetCommTimeouts
            (tr ++ [⟨Call.SetCommTimeouts p.handle p.timeouts, none, Reply.nothing⟩])
            p.handle ⟨0, 0, 0, 0, 0⟩).1.String))) := by
  have h1 : syscallErr os (os.SetCommTimeouts tr p.handle p.timeouts).1
      (os.SetCommTimeouts tr p.handle p.timeouts).2 = none := (syscallErr_eq_none _ _ _).mpr hset
  generalize hg : os.GetCommTimeouts
    (tr ++ [⟨Call.SetCommTimeouts p.handle p.timeouts, none, Reply.nothing⟩])
    p.handle ⟨0, 0, 0, 0, 0⟩ = g at hget ⊢
  have h2 : syscallErr os g.2.1 g.2.2 = none := (syscallErr_eq_none _ _ _).mpr hget
  have herr : (p.setTimeouts os tr).err =
      if p.timeouts ≠ g.1 then some (timeoutsOverridden p.timeouts g.1) else none := by
    simp only [Port.setTimeouts, _SetCommTimeouts, _GetCommTimeouts, h1, hg, h2]
    split <;> rfl
  have hfields : g.1 = p.timeouts ↔
      (g.1.ReadIntervalTimeout = p.config.ReadIntervalTimeout ∧
       g.1.ReadTotalTimeoutMultiplier = p.config.ReadTotalTimeoutMultiplier ∧
       g.1.ReadTotalTimeoutConstant = p.config.ReadTotalTimeoutConstant ∧
       g.1.WriteTotalTimeoutMultiplier = p.config.WriteTotalTimeoutMultiplier ∧
       g.1.WriteTotalTimeoutConstant = p.config.WriteTotalTimeoutConstant) := by
    rcases g.1 with ⟨a, b, c, d, e⟩
    simp [Port.timeouts]
  refine ⟨rfl, ?_, ?_⟩
  · rw [herr, ← hfields]
    by_cases h : p.timeouts = g.1
    · simp [h]
    · have h' : ¬ g.1 = p.timeouts := fun h' => h h'.symm
      simp [h, h']
  · intro hne
    rw [herr]
    have : p.timeouts ≠ g.1 := fun h => hne h.symm
    simp [this, timeoutsOverridden]

/-- Witness for C5: the all-accepting stub echoes the requested record, and `setTimeouts`
on the default Port returns no error. -/
theorem C5_setTimeouts_readback_witness :
    ((NewPort sampleConsts).setTimeouts acceptAll []).err = none :=
  (C5_setTimeouts_readback acceptAll [] (NewPort sampleConsts) (by decide) (by decide)).2.1.mpr
    (by decide)

/-! ## Signals (C9) -/

/-- C9: `Signal` issues exactly one escape call and returns its result, with function code
5 (SETDTR) for (DTR, true), 6 (CLRDTR) for (DTR, false), 3 (SETRTS) for (RTS, true) and
4 (CLRRTS) for (RTS, false); for every Signal value other than 0 (DTR) and 1 (RTS), with
either level, it returns the unrecognized-signal error and issues no call. -/
theorem C9_signal_mapping (os : OS) (tr : List Event) (p : Port) :
    (∀ s : Nat, ∀ level : Bool, ∀ fn : Nat,
      ((s = 0 ∧ level = true ∧ fn = 5) ∨ (s = 0 ∧ level = false ∧ fn = 6) ∨
       (s = 1 ∧ level = true ∧ fn = 3) ∨ (s = 1 ∧ level = false ∧ fn = 4)) →
      p.Signal os tr s level =
        { err := syscallErr os (os.EscapeCommFunction tr p.handle fn).1
                   (os.EscapeCommFunction tr p.handle fn).2
          port := p
          trace := tr ++ [⟨Call.EscapeCommFunction p.handle fn,
                     syscallErr os (os.EscapeCommFunction tr p.handle fn).1
                       (os.EscapeCommFunction tr p.handle fn).2, Reply.nothing⟩] }) ∧
    DTR = 0 ∧ RTS = 1 ∧ _SETDTR = 5 ∧ _CLRDTR = 6 ∧ _SETRTS = 3 ∧ _CLRRTS = 4 ∧
    (∀ s : Nat, ∀ level : Bool,
      p.Signal os tr (s + 2) level =
        { err := some (GoError.errorf ("Unreconized signal: " ++ toString (s + 2) ++ " " ++
                   toString level))
          port := p
          trace := tr }) := by
  refine ⟨?_, rfl, rfl, rfl, rfl, rfl, rfl, ?_⟩
  · rintro s level fn (⟨rfl, rfl, rfl⟩ | ⟨rfl, rfl, rfl⟩ | ⟨rfl, rfl, rfl⟩ | ⟨rfl, rfl, rfl⟩) <;>
      simp [Port.Signal, Port.signal, _EscapeCommFunction, DTR, RTS, _SETDTR, _CLRDTR, _SETRTS,
        _CLRRTS]
  · intro s level
    simp [Port.Signal, Port.signal, DTR, RTS]

/-! ## Default configuration (C10) -/

/-- C10, as stated, fails: for no values of the constants does the Port returned by
`NewPort` have `WriteTotalTimeoutConstant = 1000`. -/
theorem C10_newPort_counterexample :
    ¬ ∃ K : Consts, (NewPort K).config.WriteTotalTimeoutConstant = 1000 := by
  rintro ⟨K, h⟩
  simp [NewPort] at h

/-- `open` leaves the stored configuration as it is. -/
theorem open_port_config (K : Consts) (os : OS) (tr : List Event) (p : Port) :
    (p.open K os tr).port.config = p.config := by
  obtain ⟨hcfg1, -⟩ := openHandle_cases os tr p
  unfold Port.open
  simp only []
  generalize p.openHandle os tr = r1 at hcfg1 ⊢
  obtain ⟨hp2, -⟩ := setTimeouts_cases os r1.trace r1.port
  generalize r1.port.setTimeouts os r1.trace = r2 at hp2 ⊢
  obtain ⟨hp3, -⟩ := setCommState_cases K os r2.trace r2.port
  generalize r2.port.setCommState K os r2.trace = r3 at hp3 ⊢
  obtain ⟨hp4, -⟩ := reset_cases os r3.trace r3.port
  generalize r3.port.reset os r3.trace = r4 at hp4 ⊢
  rcases r1.err with _ | e1
  · rcases r2.err with _ | e2
    · rcases r3.err with _ | e3
      · rcases r4.err with _ | e4
        · simp only [hp4, hp3, hp2, hcfg1]
        · simp only [hp4, hp3, hp2, hcfg1]
      · simp only [hp3, hp2, hcfg1]
    · simp only [hp2, hcfg1]
  · simp only [hcfg1]

/-- C10, amended: the Port returned by `NewPort` holds 9600-8-N-1 with
`WriteTotalTimeoutMultiplier = 0` and `WriteTotalTimeoutConstant = 5000` milliseconds (the
1000 is `ReadIntervalTimeout`); the Port returned by `Open(device, baud)` differs from that
default configuration only in `Device` and `BaudRate`, whatever the OS answers. -/
theorem C10_newPort_default (K : Consts) :
    (NewPort K).config.BaudRate = K.BaudRate_9600 ∧
    (NewPort K).config.DataBits = K.DataBits_8 ∧
    (NewPort K).config.Parity = K.Parity_None ∧
    (NewPort K).config.StopBits = K.StopBits_1 ∧
    (NewPort K).config.WriteTotalTimeoutMultiplier = 0 ∧
    (NewPort K).config.WriteTotalTimeoutConstant = 5000 ∧
    (NewPort K).config.ReadIntervalTimeout = 1000 ∧
    (∀ (os : OS) (tr : List Event) (device : String) (baud : Int),
      (Open K os tr device baud).port.config =
        { (NewPort K).config with Device := device, BaudRate := baud }) := by
  refine ⟨rfl, rfl, rfl, rfl, rfl, rfl, rfl, ?_⟩
  intro os tr device baud
  simp only [Open, Port.Configure, Port.configure, Port.Config, Port.Open, open_port_config]

/-! ## Error handling of `Write` (C8) -/

/-- C8 at the failing input: `Write` of the one byte 0x41 against a stub whose first
`WriteFile` fails with `Errno` 5 and zero bytes written.  The code issues a second
`WriteFile` and returns `(1, nil)`: the failure is neither fatal nor reported. -/
theorem C8_write_retries_after_failure :
    (NewPort sampleConsts).Write failFirstWrite [] [0x41] 2 =
      { outcome := WriteOutcome.returned 1 none
        trace := [⟨Call.WriteFile 0 [0x41], some (GoError.errno 5), Reply.count 0⟩,
                  ⟨Call.WriteFile 0 [0x41], none, Reply.count 1⟩] } := by
  decide

/-! ## The write loop (C7) -/

/-- The loop of `write`, entered with `n < len(b)` bytes already counted and at least
`len(b) - n` units of fuel, against a stub that accepts between 1 and `len(argument)`
bytes of every non-empty argument without error. -/
theorem writeLoop_spec (os : OS) (p : Port) (b : List Nat)
    (hstub : ∀ (tr : List Event) (h : Nat) (arg : List Nat), arg ≠ [] →
      (os.WriteFile tr h arg).2 = none ∧ 1 ≤ (os.WriteFile tr h arg).1 ∧
        (os.WriteFile tr h arg).1 ≤ arg.length) :
    ∀ (fuel n : Nat) (tr : List Event), n < b.length → b.length - n ≤ fuel →
      ∃ evs, p.writeLoop os b fuel n tr =
          { outcome := WriteOutcome.returned b.length none, trace := tr ++ evs } ∧
        (∀ pre ev post, evs = pre ++ ev :: post →
          ev = ⟨Call.WriteFile p.handle (b.drop (n + (pre.map Event.done).sum)), none,
                 Reply.count (os.WriteFile (tr ++ pre) p.handle
                   (b.drop (n + (pre.map Event.done).sum))).1⟩) ∧
        (evs.map Event.chunk).flatten = b.drop n ∧
        (evs.map Event.done).sum = b.length - n ∧
        (∀ ev ∈ evs, 1 ≤ ev.done) ∧
        ((∀ (tr : List Event) (h : Nat) (arg : List Nat), arg ≠ [] →
            (os.WriteFile tr h arg).1 = 1) → evs.length = b.length - n) := by
  intro fuel
  induction fuel with
  | zero =>
    intro n tr hn hf
    omega
  | succ fuel ih =>
    intro n tr hn hf
    have harg : b.drop n ≠ [] := by
      intro h
      have := congrArg List.length h
      simp at this
      omega
    obtain ⟨herr, h1, h2⟩ := hstub tr p.handle (b.drop n) harg
    have hlen : (b.drop n).length = b.length - n := by simp
    rw [hlen] at h2
    unfold Port.writeLoop
    simp only [not_lt.mpr (Nat.le_of_lt hn), if_false, herr]
    by_cases hdone : n + (os.WriteFile tr p.handle (b.drop n)).1 = b.length
    · simp only [hdone, if_true]
      refine ⟨[⟨Call.WriteFile p.handle (b.drop n), none,
        Reply.count (os.WriteFile tr p.handle (b.drop n)).1⟩], rfl, ?_, ?_, ?_, ?_, ?_⟩
      · intro pre ev post h
        rcases pre with _ | ⟨a, pre⟩
        · simp at h
          simp [← h.1]
        · simp at h
      · have : (os.WriteFile tr p.handle (b.drop n)).1 = (b.drop n).length := by
          rw [hlen]; omega
        simp [Event.chunk, this]
      · simp [Event.done]
        omega
      · simp [Event.done]
        exact h1
      · intro hone
        have := hone tr p.handle (b.drop n) harg
        simp
        omega
    · simp only [hdone, if_false]
      obtain ⟨evs, hres, hcalls, hjoin, hsum, hpos, hcount⟩ :=
        ih (n + (os.WriteFile tr p.handle (b.drop n)).1)
          (tr ++ [⟨Call.WriteFile p.handle (b.drop n), none,
            Reply.count (os.WriteFile tr p.handle (b.drop n)).1⟩]) (by omega) (by omega)
      refine ⟨⟨Call.WriteFile p.handle (b.drop n), none,
        Reply.count (os.WriteFile tr p.handle (b.drop n)).1⟩ :: evs, ?_, ?_, ?_, ?_, ?_, ?_⟩
      · rw [hres]
        simp
      · intro pre ev post h
        rcases pre with _ | ⟨a, pre⟩
        · simp at h
          simp [← h.1]
        · simp only [List.cons_append, List.cons.injEq] at h
          obtain ⟨rfl, h⟩ := h
          have := hcalls pre ev post h
          rw [this]
          simp [Event.done, Nat.add_assoc]
      · simp only [List.map_cons, List.flatten_cons, hjoin]
        simp only [Event.chunk]
        rw [← List.drop_drop, List.take_append_drop]
      · simp only [List.map_cons, List.sum_cons, hsum]
        simp [Event.done]
        omega
      · intro ev hev
        rcases List.mem_cons.mp hev with rfl | hev
        · simpa [Event.done] using h1
        · exact hpos ev hev
      · intro hone
        have h3 := hone tr p.handle (b.drop n) harg
        have h4 := hcount hone
        simp only [List.length_cons, h4]
        omega

/-- C7, as stated, fails at the empty slice: `oneByteStrict` accepts one byte of every
non-empty argument without error, yet `Write` of the empty slice passes it the empty
argument once and returns the error of that call, never `(0, nil)`. -/
theorem C7_write_counterexample :
    (∀ (tr : List Event) (h : Nat) (arg : List Nat), arg ≠ [] →
      (oneByteStrict.WriteFile tr h arg).2 = none ∧ 1 ≤ (oneByteStrict.WriteFile tr h arg).1 ∧
        (oneByteStrict.WriteFile tr h arg).1 ≤ arg.length) ∧
    (NewPort sampleConsts).Write oneByteStrict [] [] 1 =
      { outcome := WriteOutcome.returned 0 (some (GoError.errno 5))
        trace := [⟨Call.WriteFile 0 [], some (GoError.errno 5), Reply.count 0⟩] } ∧
    (∀ fuel : Nat, ((NewPort sampleConsts).Write oneByteStrict [] [] fuel).outcome ≠
      WriteOutcome.returned 0 none) := by
  refine ⟨?_, by decide, ?_⟩
  · intro tr h arg harg
    rcases arg with _ | ⟨a, arg⟩
    · exact absurd rfl harg
    · simp [oneByteStrict]
  · intro fuel
    rcases fuel with _ | fuel
    · simp [Port.Write, Port.write, Port.writeLoop]
    · simp [Port.Write, Port.write, Port.writeLoop, oneByteStrict]

/-- C7, amended: for every byte slice `b` and every OS write stub that accepts, without
error, between 1 and `len(argument)` bytes of every non-empty argument and 0 bytes of an
empty argument, `Write` terminates (within `max 1 len(b)` iterations) and returns
`(len(b), nil)`; each call is passed the still-unwritten suffix `b[n:]`, where `n` is the
sum of the counts accepted before; the accepted chunks, concatenated in call order, equal
`b`; and a stub accepting one byte per call is called exactly `len(b)` times for
non-empty `b`. -/
theorem C7_write_all (os : OS) (tr : List Event) (p : Port) (b : List Nat) (fuel : Nat)
    (hstub : ∀ (tr : List Event) (h : Nat) (arg : List Nat), arg ≠ [] →
      (os.WriteFile tr h arg).2 = none ∧ 1 ≤ (os.WriteFile tr h arg).1 ∧
        (os.WriteFile tr h arg).1 ≤ arg.length)
    (hempty : ∀ (tr : List Event) (h : Nat), os.WriteFile tr h [] = (0, none))
    (hfuel : b.length ≤ fuel) (hfuel1 : 1 ≤ fuel) :
    ∃ evs, p.Write os tr b fuel =
        { outcome := WriteOutcome.returned b.length none, trace := tr ++ evs } ∧
      (∀ pre ev post, evs = pre ++ ev :: post →
        ev = ⟨Call.WriteFile p.handle (b.drop (pre.map Event.done).sum), none,
               Reply.count (os.WriteFile (tr ++ pre) p.handle
                 (b.drop (pre.map Event.done).sum)).1⟩) ∧
      (evs.map Event.chunk).flatten = b ∧
      ((∀ (tr : List Event) (h : Nat) (arg : List Nat), arg ≠ [] →
          (os.WriteFile tr h arg).1 = 1) → b ≠ [] → evs.length = b.length) := by
  rcases b with _ | ⟨x, b⟩
  · obtain ⟨fuel, rfl⟩ : ∃ k, fuel = k + 1 := ⟨fuel - 1, by omega⟩
    refine ⟨[⟨Call.WriteFile p.handle [], none, Reply.count 0⟩], ?_, ?_, ?_, ?_⟩
    · simp [Port.Write, Port.write, Port.writeLoop, hempty]
    · intro pre ev post h
      rcases pre with _ | ⟨a, pre⟩
      · simp at h
        simp [← h.1, hempty]
      · simp at h
    · simp [Event.chunk]
    · intro _ h
      exact absurd rfl h
  · obtain ⟨evs, hres, hcalls, hjoin, -, -, hcount⟩ :=
      writeLoop_spec os p (x :: b) hstub fuel 0 tr (by simp) (by simpa using hfuel)
    refine ⟨evs, hres, ?_, ?_, ?_⟩
    · intro pre ev post h
      have := hcalls pre ev post h
      simpa using this
    · simpa using hjoin
    · intro hone _
      simpa using hcount hone

/-- Witness for C7: three bytes against the stub that accepts one byte per call. -/
theorem C7_write_all_witness :
    ((NewPort sampleConsts).Write oneByte [] [1, 2, 3] 3).outcome =
      WriteOutcome.returned 3 none := by
  obtain ⟨evs, h, -⟩ := C7_write_all oneByte [] (NewPort sampleConsts) [1, 2, 3] 3
    (by
      intro tr h arg harg
      rcases arg with _ | ⟨a, arg⟩
      · exact absurd rfl harg
      · simp [oneByte])
    (by intro tr h; rfl)
    (by decide) (by decide)
  rw [h]
  rfl

end Serial
